import Mathlib

/-!
Verification development for the dod-tools demo-analysis pipeline.

The definitions below are a shallow embedding of the Rust sources:

* `Dod.*` embeds the wire-level user-message decoder of `src/dod/src/lib.rs`
  (nom parsers over byte slices become functions `List Byte → Option (α × List Byte)`).
* The top-level analysis definitions embed `src/analysis/src/lib.rs`
  (the event-sourced fold: state, update functions, driver).
* `TimeMod.*` embeds the timing update of `src/analysis/src/time.rs`
  (a variant of the timing update kept in the tree alongside the one in `lib.rs`).

Machine integers are modelled as `Nat`/`Int` with explicit wrap-around where the
source relies on it; `std::time::Duration` is modelled as a `Nat` count of
nanoseconds (`Duration::from_secs_f32` of an `f32` seconds value is modelled by
the nanosecond value it rounds to; `Duration::from_secs s` is `s * 1000000000`).
Rust panics (`expect`, `panic!`, `Duration` subtraction underflow) are modelled
with `Except Panic`.
-/

namespace Dod

/-- Teams, from `src/dod/src/lib.rs` (`enum Team`). -/
inductive Team where
  | allies
  | axis
  | spectators
deriving DecidableEq

/-- Player classes, from `src/dod/src/lib.rs` (`enum Class`). -/
inductive Class where
  | axisMortar
  | bazooka
  | britishMortar
  | britishRifleman
  | fg42Zielfernrohr
  | fg42Zweibein
  | grenadier
  | gunner
  | mg34Schutze
  | mg42Schutze
  | machineGunner
  | marksman
  | masterSergeant
  | mortar
  | panzerschreck
  | random
  | rifleman
  | rocketInfantry
  | scharfschutze
  | sergeant
  | sergeantMajor
  | sniper
  | staffSergeant
  | stosstruppe
  | sturmtruppe
  | supportInfantry
  | unteroffizer
deriving DecidableEq

/-- Weapons, from `src/dod/src/lib.rs` (`enum Weapon`); the numeric wire tags
live in the `weaponTag` parser below. -/
inductive Weapon where
  | kabar
  | germanKnife
  | m1911
  | luger
  | garand
  | scopedK98
  | thompson
  | stg44
  | springfield
  | k98
  | bar
  | mp40
  | mk2Grenade
  | stickGrenade
  | mg42
  | browning30Cal
  | spade
  | m1Carbine
  | mg34
  | greaseGun
  | fg42
  | k43
  | leeEnfield
  | sten
  | bren
  | webley
  | bazooka
  | panzerschreck
  | piat
  | mortar
  | scopedFg42
  | m1a1Carbine
  | k98Bayonet
  | scopedLeeEnfield
  | millsBomb
  | britishKnife
  | buttStock
  | enfieldBayonet
deriving DecidableEq

/-- Ammunition kinds, from `src/dod/src/lib.rs` (`enum Ammo`). -/
inductive Ammo where
  | smg
  | altRifle
  | rifle
  | pistol
  | springfield
  | heavy
  | mg42
  | browning30Cal
  | grenade
  | rocket
deriving DecidableEq

/-- A wire byte. -/
abbrev Byte := Fin 256

/-- A nom-style parser over a byte slice: it either fails or returns the parsed
value together with the unconsumed remainder of the input. -/
def Parser (α : Type) : Type := List Byte → Option (α × List Byte)

/-- Parser that consumes nothing and returns a value. -/
def pPure {α : Type} (a : α) : Parser α := fun i => some (a, i)

/-- Sequencing of parsers. -/
def pBind {α β : Type} (p : Parser α) (f : α → Parser β) : Parser β := fun i =>
  match p i with
  | some (a, r) => f a r
  | none => none

instance : Monad Parser where
  pure := pPure
  bind := pBind

/-- `nom::combinator::fail`. -/
def pFail {α : Type} : Parser α := fun _ => none

/-- `nom::number::complete::le_u8`. -/
def leU8 : Parser Nat := fun i =>
  match i with
  | [] => none
  | b :: r => some (b.val, r)

/-- `nom::number::complete::le_u16` (little endian). -/
def leU16 : Parser Nat := do
  let a ← leU8
  let b ← leU8
  pure (a + 256 * b)

/-- Two's-complement reinterpretation of an unsigned value of width `w`. -/
def toSigned (w : Nat) (v : Nat) : Int :=
  if v < w / 2 then (v : Int) else (v : Int) - (w : Int)

/-- `nom::number::complete::le_i8`. -/
def leI8 : Parser Int := do
  let a ← leU8
  pure (toSigned 256 a)

/-- `nom::number::complete::le_i16`. -/
def leI16 : Parser Int := do
  let v ← leU16
  pure (toSigned 65536 v)

/-- `nom::number::complete::le_i32`. -/
def leI32 : Parser Int := do
  let a ← leU8
  let b ← leU8
  let c ← leU8
  let d ← leU8
  pure (toSigned 4294967296 (a + 256 * b + 65536 * c + 16777216 * d))

/-- `nom::bytes::complete::take(n)`. -/
def pTake (n : Nat) : Parser (List Byte) := fun i =>
  if n ≤ i.length then some (i.take n, i.drop n) else none

/-- `nom::combinator::eof`: succeeds only at end of input. -/
def pEof : Parser Unit := fun i =>
  if i.isEmpty then some ((), i) else none

/-- `nom::combinator::all_consuming`: succeeds only when the child parser
consumed the whole input. -/
def allConsuming {α : Type} (p : Parser α) : Parser α := fun i =>
  match p i with
  | some (a, []) => some (a, [])
  | _ => none

/-- `nom::combinator::opt`. -/
def pOpt {α : Type} (p : Parser α) : Parser (Option α) := fun i =>
  match p i with
  | some (a, r) => some (some a, r)
  | none => some (none, i)

/-- `nom::branch::alt` of two alternatives. -/
def pAlt {α : Type} (p q : Parser α) : Parser α := fun i =>
  match p i with
  | some x => some x
  | none => q i

/-- `Parser::map_res`: map the parsed value through a fallible function. -/
def mapRes {α β : Type} (p : Parser α) (f : α → Option β) : Parser β := fun i =>
  match p i with
  | some (a, r) =>
    match f a with
    | some b => some (b, r)
    | none => none
  | none => none

/-- `nom::bytes::complete::tag("\x00")`. -/
def tagNul : Parser Unit := fun i =>
  match i with
  | [] => none
  | b :: r => if b.val = 0 then some ((), r) else none

/-- `nom::bytes::complete::take_until("\x00")`: the bytes before the first NUL
(which is not consumed); fails when there is no NUL. -/
def takeUntilNul : Parser (List Byte) := fun i =>
  match i.findIdx? (fun b => b.val = 0) with
  | some k => some (i.take k, i.drop k)
  | none => none

/-- Whether a continuation byte has the form `10xxxxxx`. -/
def isUtf8Cont (b : Byte) : Bool := 128 ≤ b.val && b.val < 192

/-- Validity check of `String::from_utf8` (standard UTF-8 well-formedness,
rejecting overlong encodings, surrogates and values above U+10FFFF). -/
def isValidUtf8 : List Byte → Bool
  | [] => true
  | b :: rest =>
    if b.val < 128 then isValidUtf8 rest
    else if b.val < 194 then false
    else if b.val < 224 then
      match rest with
      | c1 :: r => isUtf8Cont c1 && isValidUtf8 r
      | [] => false
    else if b.val < 240 then
      match rest with
      | c1 :: c2 :: r =>
        (if b.val = 224 then decide (160 ≤ c1.val) && decide (c1.val < 192)
         else if b.val = 237 then decide (128 ≤ c1.val) && decide (c1.val < 160)
         else isUtf8Cont c1) && isUtf8Cont c2 && isValidUtf8 r
      | _ => false
    else if b.val < 245 then
      match rest with
      | c1 :: c2 :: c3 :: r =>
        (if b.val = 240 then decide (144 ≤ c1.val) && decide (c1.val < 192)
         else if b.val = 244 then decide (128 ≤ c1.val) && decide (c1.val < 144)
         else isUtf8Cont c1) && isUtf8Cont c2 && isUtf8Cont c3 && isValidUtf8 r
      | _ => false
    else false

/-- Round states, from `src/dod/src/lib.rs` (`enum RoundState`); wire tags are
in the `round_state` parser. -/
inductive RoundState where
  | reset
  | start
  | alliesWin
  | axisWin
  | draw
deriving DecidableEq

/-- One objective record of an `InitObj` message (`struct Objective`). -/
structure Objective where
  entity_index : Nat
  area_index : Nat
  team : Option Team
  unk1 : Nat
  neutral_icon_index : Nat
  allies_icon_index : Nat
  axis_icon_index : Nat
  origin : Int × Int

/-- Decoded user messages, from `src/dod/src/lib.rs` (`enum UserMessage`).
Each constructor's arguments are the fields of the corresponding payload
struct, in source order; Rust `String` fields are represented by their
(UTF-8-validated) byte content, `Duration` fields by nanoseconds. -/
inductive UserMessage where
  | ammoShort (ammo : Ammo) (amount : Nat)
  | ammoX (ammo : Ammo) (amount : Nat)
  | bloodPuff (origin : Int × Int × Int)
  | cancelProg (area_index : Nat) (unk2 : Nat)
  | capMsg (client_index : Nat) (point_name : List Byte) (team : Team)
  | clanTimer (t : Nat)
  | clCorpse (model_name : List Byte) (origin : Int × Int × Int)
      (angle : Int × Int × Int) (animation_sequence : Nat) (body : Nat) (team : Team)
  | clientAreas (icon_index : Nat) (hud_icon : Option (List Byte))
  | curWeapon (is_active : Bool) (weapon : Weapon) (clip_ammo : Nat)
  | deathMsg (killer_client_index : Nat) (victim_client_index : Nat) (weapon : Weapon)
  | frags (client_index : Nat) (frags : Int)
  | gameRules (unk1 : Nat) (unk2 : Nat)
  | health (value : Nat)
  | hideWeapon (flags : Nat)
  | hudText (text : List Byte) (init_hud_style : Nat)
  | initHUD
  | initObj (objectives : List Objective)
  | motd (is_terminal : Bool) (text : List Byte)
  | objScore (client_index : Nat) (score : Int)
  | pClass (client_index : Nat) (cls : Class)
  | pStatus (client_index : Nat) (status : Nat)
  | pTeam (client_index : Nat) (team : Team)
  | playersIn (objective_index : Nat) (team : Team)
      (players_inside_area : Nat) (required_players_for_area : Nat)
  | reloadDone
  | reqState
  | resetHUD
  | resetSens
  | roundState (rs : RoundState)
  | sayText (client_index : Nat) (text : List Byte)
  | scope
  | scoreShort (client_index : Nat) (score : Int) (kills : Int) (deaths : Int)
  | screenFade
  | screenShake
  | serverName (name : List Byte)
  | setFOV (value : Nat)
  | setObj (area_index : Nat) (team : Option Team)
  | spectator (client_index : Nat) (is_spectator : Bool)
  | startProg (area_index : Nat) (team : Team) (cap_duration : Nat)
  | statusValue (value : Nat)
  | teamScore (team : Team) (score : Nat)
  | textMsg (destination : Nat) (text : List Byte) (arg1 : Option (List Byte))
      (arg2 : Option (List Byte)) (arg3 : Option (List Byte)) (arg4 : Option (List Byte))
  | timeLeft (t : Nat)
  | useSound (is_entity_in_sphere : Bool)
  | vguiMenu
  | voiceMask (audible_players : Int) (banned_players : Int)
  | waveStatus (value : Nat)
  | waveTime (t : Nat)
  | weaponList (primary_ammo : Ammo) (primary_ammo_max : Nat) (secondary_ammo : Ammo)
      (secondary_ammo_max : Nat) (slot : Nat) (position_in_slot : Nat) (weapon : Weapon)
      (unk1 : Nat) (unk2 : Nat) (clip_size : Nat)
  | youDied

/-- `Duration::from_secs`, in nanoseconds. -/
def durationFromSecs (s : Nat) : Nat := s * 1000000000

/-- `fn wrapped_string` (`all_consuming(many0(le_u8)).map_res(String::from_utf8)`):
consumes the whole input and validates it as UTF-8. -/
def wrapped_string : Parser (List Byte) := fun i =>
  if isValidUtf8 i then some (i, []) else none

/-- `fn null_string`: `alt((tag("\x00") → ""), terminated(take_until("\x00"), tag("\x00")))`
followed by `map_res(String::from_utf8)`. -/
def null_string : Parser (List Byte) :=
  mapRes
    (pAlt (do tagNul; pure ([] : List Byte))
          (do let s ← takeUntilNul; tagNul; pure s))
    (fun bs => if isValidUtf8 bs then some bs else none)

/-- `fn class` (named `classTag` because `class` is reserved in Lean).
Tag mapping annotated "FIXME Inaccurate!" in the source. -/
def classTag : Parser Class :=
  mapRes leU8 (fun value =>
    match value with
    | 1 => some .rifleman
    | 2 => some .staffSergeant
    | 3 => some .masterSergeant
    | 4 => some .sergeant
    | 5 => some .sniper
    | 6 => some .supportInfantry
    | 7 => some .machineGunner
    | 8 => some .bazooka
    | 9 => some .mortar
    | 10 => some .grenadier
    | 11 => some .stosstruppe
    | 12 => some .unteroffizer
    | 13 => some .sturmtruppe
    | 14 => some .scharfschutze
    | 15 => some .fg42Zweibein
    | 16 => some .fg42Zielfernrohr
    | 17 => some .mg34Schutze
    | 18 => some .mg42Schutze
    | 19 => some .panzerschreck
    | 20 => some .axisMortar
    | 21 => some .britishRifleman
    | 22 => some .sergeantMajor
    | 23 => some .marksman
    | 24 => some .gunner
    | 25 => some .rocketInfantry
    | 26 => some .britishMortar
    | 27 => some .random
    | _ => none)

/-- `fn team` (named `teamTag`). -/
def teamTag : Parser Team :=
  mapRes leU8 (fun value =>
    match value with
    | 1 => some .allies
    | 2 => some .axis
    | 3 => some .spectators
    | _ => none)

/-- `fn weapon` (named `weaponTag`). -/
def weaponTag : Parser Weapon :=
  mapRes leU8 (fun value =>
    match value with
    | 1 => some .kabar
    | 2 => some .germanKnife
    | 3 => some .m1911
    | 4 => some .luger
    | 5 => some .garand
    | 6 => some .scopedK98
    | 7 => some .thompson
    | 8 => some .stg44
    | 9 => some .springfield
    | 10 => some .k98
    | 11 => some .bar
    | 12 => some .mp40
    | 13 => some .mk2Grenade
    | 14 => some .stickGrenade
    | 17 => some .mg42
    | 18 => some .browning30Cal
    | 19 => some .spade
    | 20 => some .m1Carbine
    | 21 => some .mg34
    | 22 => some .greaseGun
    | 23 => some .fg42
    | 24 => some .k43
    | 25 => some .leeEnfield
    | 26 => some .sten
    | 27 => some .bren
    | 28 => some .webley
    | 29 => some .bazooka
    | 30 => some .panzerschreck
    | 31 => some .piat
    | 32 => some .mortar
    | 35 => some .scopedFg42
    | 36 => some .m1a1Carbine
    | 37 => some .k98Bayonet
    | 38 => some .scopedLeeEnfield
    | 39 => some .millsBomb
    | 40 => some .britishKnife
    | 42 => some .buttStock
    | 43 => some .enfieldBayonet
    | _ => none)

/-- `fn ammo` (named `ammoTag`). Note the source wraps `le_u8` in
`all_consuming`, so this parser only succeeds when the ammo byte is the last
byte of the input — preserved faithfully. -/
def ammoTag : Parser Ammo :=
  mapRes (allConsuming leU8) (fun value =>
    match value with
    | 1 => some .smg
    | 2 => some .altRifle
    | 3 => some .rifle
    | 4 => some .pistol
    | 5 => some .springfield
    | 6 => some .heavy
    | 7 => some .mg42
    | 8 => some .browning30Cal
    | 9 => some .rocket
    | _ => none)

/-- `fn ammo_short`; the final constructor application renders the Rust
`.map(Self::AmmoShort)` done at the dispatch site. -/
def ammo_short : Parser UserMessage :=
  allConsuming (do
    let a ← ammoTag
    let amount ← leU16
    pure (UserMessage.ammoShort a amount))

/-- `fn ammox`. -/
def ammox : Parser UserMessage :=
  allConsuming (do
    let a ← ammoTag
    let amount ← leU8
    pure (UserMessage.ammoX a amount))

/-- `fn blood_puff`. -/
def blood_puff : Parser UserMessage :=
  allConsuming (do
    let x ← leI16
    let y ← leI16
    let z ← leI16
    pure (UserMessage.bloodPuff (x, y, z)))

/-- `fn cancel_prog`. -/
def cancel_prog : Parser UserMessage :=
  allConsuming (do
    let area_index ← leU8
    let unk2 ← leU8
    pure (UserMessage.cancelProg area_index unk2))

/-- `fn cap_msg`. -/
def cap_msg : Parser UserMessage :=
  allConsuming (do
    let client_index ← leU8
    let point_name ← null_string
    let t ← teamTag
    pure (UserMessage.capMsg client_index point_name t))

/-- `fn cl_corpse`. -/
def cl_corpse : Parser UserMessage :=
  allConsuming (do
    let model_name ← null_string
    let ox ← leI16
    let oy ← leI16
    let oz ← leI16
    let ax ← leI8
    let ay ← leI8
    let az ← leI8
    let animation_sequence ← leU8
    let body ← leU16
    let t ← teamTag
    pure (UserMessage.clCorpse model_name (ox, oy, oz) (ax, ay, az) animation_sequence body t))

/-- `fn clan_timer`: a bare `le_u8` mapped through `Duration::from_secs` —
note there is no `all_consuming` wrapper in the source. -/
def clan_timer : Parser UserMessage := do
  let clan_timer_seconds ← leU8
  pure (UserMessage.clanTimer (durationFromSecs clan_timer_seconds))

/-- `fn client_areas`: `le_u8 icon, le_u8 flags`, then a trailing `null_string`
only when `flags == 255` — note there is no `all_consuming` wrapper. -/
def client_areas : Parser UserMessage := do
  let icon_index ← leU8
  let flags ← leU8
  let hud_icon ←
    if flags = 255 then (fun s => Option.some s) <$> null_string
    else pure Option.none
  pure (UserMessage.clientAreas icon_index hud_icon)

/-- `fn cur_weapon`. -/
def cur_weapon : Parser UserMessage :=
  allConsuming (do
    let b ← leU8
    let w ← weaponTag
    let clip_ammo ← leU8
    pure (UserMessage.curWeapon (b ≠ 0) w clip_ammo))

/-- `fn death_msg`. -/
def death_msg : Parser UserMessage :=
  allConsuming (do
    let killer_client_index ← leU8
    let victim_client_index ← leU8
    let w ← weaponTag
    pure (UserMessage.deathMsg killer_client_index victim_client_index w))

/-- `fn frags`. -/
def frags : Parser UserMessage :=
  allConsuming (do
    let client_index ← leU8
    let f ← leI16
    pure (UserMessage.frags client_index f))

/-- `fn game_rules`. -/
def game_rules : Parser UserMessage :=
  allConsuming (do
    let unk1 ← leU8
    let unk2 ← leU8
    pure (UserMessage.gameRules unk1 unk2))

/-- `fn health`. -/
def health : Parser UserMessage :=
  allConsuming (do
    let v ← leU8
    pure (UserMessage.health v))

/-- `fn hide_weapon`. -/
def hide_weapon : Parser UserMessage :=
  allConsuming (do
    let flags ← leU8
    pure (UserMessage.hideWeapon flags))

/-- `fn hud_text`. -/
def hud_text : Parser UserMessage :=
  allConsuming (do
    let text ← null_string
    let init_hud_style ← leU8
    pure (UserMessage.hudText text init_hud_style))

/-- `fn init_hud`: `eof`. -/
def init_hud : Parser UserMessage := do
  let _ ← pEof
  pure UserMessage.initHUD

/-- The inner `objective` parser of `fn init_obj`. -/
def objective : Parser Objective := do
  let entity_index ← leU16
  let area_index ← leU8
  let team ← pAlt ((fun t => Option.some t) <$> teamTag) (do tagNul; pure Option.none)
  let unk1 ← leU8
  let neutral_icon_index ← leU8
  let allies_icon_index ← leU8
  let axis_icon_index ← leU8
  let ox ← leI16
  let oy ← leI16
  pure ⟨entity_index, area_index, team, unk1, neutral_icon_index,
        allies_icon_index, axis_icon_index, (ox, oy)⟩

/-- Repetition of a parser a fixed number of times (body of `length_count`). -/
def pCount {α : Type} (p : Parser α) : Nat → Parser (List α)
  | 0 => pure []
  | n + 1 => do
    let a ← p
    let rest ← pCount p n
    pure (a :: rest)

/-- `fn init_obj`: `all_consuming(length_count(le_u8, objective))`. -/
def init_obj : Parser UserMessage :=
  allConsuming (do
    let n ← leU8
    let objectives ← pCount objective n
    pure (UserMessage.initObj objectives))

/-- `fn motd`: `all_consuming((le_u8, many0(le_u8).map_res(String::from_utf8)))`;
`many0(le_u8)` consumes the rest of the input. -/
def motd : Parser UserMessage :=
  allConsuming (do
    let b ← leU8
    let text ← wrapped_string
    pure (UserMessage.motd (b ≠ 0) text))

/-- `fn obj_score`. -/
def obj_score : Parser UserMessage :=
  allConsuming (do
    let client_index ← leU8
    let score ← leI16
    pure (UserMessage.objScore client_index score))

/-- `fn p_class`. -/
def p_class : Parser UserMessage :=
  allConsuming (do
    let client_index ← leU8
    let c ← classTag
    pure (UserMessage.pClass client_index c))

/-- `fn p_status`. -/
def p_status : Parser UserMessage :=
  allConsuming (do
    let client_index ← leU8
    let status ← leU8
    pure (UserMessage.pStatus client_index status))

/-- `fn p_team`. -/
def p_team : Parser UserMessage :=
  allConsuming (do
    let client_index ← leU8
    let t ← teamTag
    pure (UserMessage.pTeam client_index t))

/-- `fn players_in`. -/
def players_in : Parser UserMessage :=
  allConsuming (do
    let objective_index ← leU8
    let t ← teamTag
    let players_inside_area ← leU8
    let required_players_for_area ← leU8
    pure (UserMessage.playersIn objective_index t players_inside_area required_players_for_area))

/-- `fn reload_done`: `eof`. -/
def reload_done : Parser UserMessage := do
  let _ ← pEof
  pure UserMessage.reloadDone

/-- `fn req_state`: `eof`. -/
def req_state : Parser UserMessage := do
  let _ ← pEof
  pure UserMessage.reqState

/-- `fn reset_hud`: `eof`. -/
def reset_hud : Parser UserMessage := do
  let _ ← pEof
  pure UserMessage.resetHUD

/-- `fn reset_sens`: `eof`. -/
def reset_sens : Parser UserMessage := do
  let _ ← pEof
  pure UserMessage.resetSens

/-- `fn round_state`. -/
def round_state : Parser UserMessage :=
  mapRes (allConsuming leU8) (fun team_id =>
    match team_id with
    | 0 => some (UserMessage.roundState .reset)
    | 1 => some (UserMessage.roundState .start)
    | 3 => some (UserMessage.roundState .alliesWin)
    | 4 => some (UserMessage.roundState .axisWin)
    | 5 => some (UserMessage.roundState .draw)
    | _ => none)

/-- `fn say_text`. -/
def say_text : Parser UserMessage :=
  allConsuming (do
    let client_index ← leU8
    let _ ← leU8
    let text ← null_string
    pure (UserMessage.sayText client_index text))

/-- `fn scope`. -/
def scope : Parser UserMessage :=
  allConsuming (do
    let _ ← leU8
    pure UserMessage.scope)

/-- `fn score_short`. -/
def score_short : Parser UserMessage :=
  allConsuming (do
    let client_index ← leU8
    let score ← leI16
    let kills ← leI16
    let deaths ← leI16
    let _ ← leU8
    pure (UserMessage.scoreShort client_index score kills deaths))

/-- `fn screen_fade`: `context("ScreenFade", fail())`. -/
def screen_fade : Parser UserMessage := pFail

/-- `fn screen_shake`: `context("ScreenShake", fail())`. -/
def screen_shake : Parser UserMessage := pFail

/-- `fn server_name`: `wrapped_string(i, ServerName)`. -/
def server_name : Parser UserMessage := do
  let s ← wrapped_string
  pure (UserMessage.serverName s)

/-- `fn set_fov`. -/
def set_fov : Parser UserMessage :=
  allConsuming (do
    let v ← leU8
    pure (UserMessage.setFOV v))

/-- `fn set_obj`. -/
def set_obj : Parser UserMessage :=
  allConsuming (do
    let area_index ← leU8
    let team ← pAlt ((fun t => Option.some t) <$> teamTag) (do tagNul; pure Option.none)
    let _ ← leU8
    pure (UserMessage.setObj area_index team))

/-- `fn spectator`. -/
def spectator : Parser UserMessage :=
  allConsuming (do
    let client_index ← leU8
    let b ← leU8
    pure (UserMessage.spectator client_index (b ≠ 0)))

/-- `fn start_prog`. -/
def start_prog : Parser UserMessage :=
  allConsuming (do
    let area_index ← leU8
    let t ← teamTag
    let v ← leU16
    pure (UserMessage.startProg area_index t (durationFromSecs v)))

/-- `fn status_value`. -/
def status_value : Parser UserMessage :=
  allConsuming (do
    let v ← leU8
    pure (UserMessage.statusValue v))

/-- `fn team_score`. -/
def team_score : Parser UserMessage :=
  allConsuming (do
    let t ← teamTag
    let score ← leU16
    pure (UserMessage.teamScore t score))

/-- `fn text_msg`. -/
def text_msg : Parser UserMessage :=
  allConsuming (do
    let destination ← leU8
    let text ← null_string
    let arg1 ← pOpt null_string
    let arg2 ← pOpt null_string
    let arg3 ← pOpt null_string
    let arg4 ← pOpt null_string
    pure (UserMessage.textMsg destination text arg1 arg2 arg3 arg4))

/-- `fn time_left`. -/
def time_left : Parser UserMessage := do
  let x ← allConsuming leU16
  pure (UserMessage.timeLeft (durationFromSecs x))

/-- `fn use_sound`. -/
def use_sound : Parser UserMessage := do
  let b ← allConsuming leU8
  pure (UserMessage.useSound (b ≠ 0))

/-- `fn vgui_menu`: `context("VGUIMenu", fail())`. -/
def vgui_menu : Parser UserMessage := pFail

/-- `fn voice_mask`. -/
def voice_mask : Parser UserMessage :=
  allConsuming (do
    let audible_players ← leI32
    let banned_players ← leI32
    pure (UserMessage.voiceMask audible_players banned_players))

/-- `fn wave_status`. -/
def wave_status : Parser UserMessage := do
  let v ← allConsuming leU8
  pure (UserMessage.waveStatus v)

/-- `fn wave_time`. -/
def wave_time : Parser UserMessage := do
  let seconds ← allConsuming leU8
  pure (UserMessage.waveTime (durationFromSecs seconds))

/-- `fn weapon_list`. -/
def weapon_list : Parser UserMessage :=
  allConsuming (do
    let primary_ammo ← ammoTag
    let primary_ammo_max ← leU8
    let secondary_ammo ← ammoTag
    let secondary_ammo_max ← leU8
    let slot ← leU8
    let position_in_slot ← leU8
    let w ← weaponTag
    let unk1 ← leU8
    let unk2 ← leU8
    let clip_size ← leU8
    pure (UserMessage.weaponList primary_ammo primary_ammo_max secondary_ammo
      secondary_ammo_max slot position_in_slot w unk1 unk2 clip_size))

/-- `fn you_died`: `all_consuming(take(1usize))`. -/
def you_died : Parser UserMessage :=
  allConsuming (do
    let _ ← pTake 1
    pure UserMessage.youDied)

/-- `UserMessage::new` (`src/dod/src/lib.rs:966-1026`): dispatch on the (already
NUL-trimmed, UTF-8-decoded) message name. The Rust code binds `let (_, message)`,
discarding the unconsumed remainder; we return the remainder alongside the
message so that consumption can be stated — the Rust result corresponds to
`(UserMessage.new name data).map Prod.fst`. Unknown names fail
(`context("Unknown message", fail())`). -/
def UserMessage.new (msg_name : String) (i : List Byte) : Option (UserMessage × List Byte) :=
  match msg_name with
  | "AmmoShort" => ammo_short i
  | "AmmoX" => ammox i
  | "BloodPuff" => blood_puff i
  | "CancelProg" => cancel_prog i
  | "CapMsg" => cap_msg i
  | "ClCorpse" => cl_corpse i
  | "ClanTimer" => clan_timer i
  | "ClientAreas" => client_areas i
  | "CurWeapon" => cur_weapon i
  | "DeathMsg" => death_msg i
  | "Frags" => Dod.frags i
  | "GameRules" => game_rules i
  | "Health" => Dod.health i
  | "HideWeapon" => hide_weapon i
  | "HudText" => hud_text i
  | "InitHUD" => init_hud i
  | "InitObj" => init_obj i
  | "MOTD" => Dod.motd i
  | "ObjScore" => obj_score i
  | "PClass" => p_class i
  | "PStatus" => p_status i
  | "PTeam" => p_team i
  | "PlayersIn" => players_in i
  | "ReloadDone" => reload_done i
  | "ReqState" => req_state i
  | "ResetHUD" => reset_hud i
  | "ResetSens" => reset_sens i
  | "RoundState" => round_state i
  | "SayText" => say_text i
  | "Scope" => Dod.scope i
  | "ScoreShort" => score_short i
  | "ScreenFade" => screen_fade i
  | "ScreenShake" => screen_shake i
  | "ServerName" => server_name i
  | "SetFOV" => set_fov i
  | "SetObj" => set_obj i
  | "Spectator" => Dod.spectator i
  | "StartProg" => start_prog i
  | "StatusValue" => status_value i
  | "TeamScore" => team_score i
  | "TextMsg" => text_msg i
  | "TimeLeft" => time_left i
  | "UseSound" => use_sound i
  | "VGUIMenu" => vgui_menu i
  | "VoiceMask" => voice_mask i
  | "WaveStatus" => wave_status i
  | "WaveTime" => wave_time i
  | "WeaponList" => weapon_list i
  | "YouDied" => you_died i
  | _ => none

/-- A parser that never leaves unconsumed input behind on success. -/
def RestEmpty {α : Type} (p : Parser α) : Prop :=
  ∀ i a r, p i = some (a, r) → r = []

end Dod

open Dod (Team Class Weapon)

/-- `std::time::Duration`, modelled as a count of nanoseconds. -/
abbrev Duration := Nat

/-- `struct GameTime` (`src/analysis/src/lib.rs:12-17`). The `origin : Instant`
field (marked `dead_code` in the source, never read) is omitted; `offset` is the
duration since recording start. `Default` gives offset 0. -/
structure GameTime where
  offset : Duration
deriving DecidableEq

/-- `struct PlayerGlobalId(pub String)`. -/
structure PlayerGlobalId where
  str : String
deriving DecidableEq

/-- `enum ConnectionStatus`. -/
inductive ConnectionStatus where
  | connected (client_id : Nat)
  | disconnected
deriving DecidableEq

/-- `struct KillStreak`. -/
structure KillStreak where
  kills : List (GameTime × Weapon)
deriving DecidableEq

/-- `struct Player` (`src/analysis/src/lib.rs:65-75`). `class` is spelled `cls`
(reserved word); the `HashMap<Weapon, (u32, u32)>` weapon breakdown is modelled
as an association list with unique keys. -/
structure Player where
  id : PlayerGlobalId
  connection_status : ConnectionStatus
  name : String
  team : Option Team
  cls : Option Dod.Class
  stats : Int × Int × Int
  kill_streaks : List KillStreak
  weapon_breakdown : List (Weapon × (Nat × Nat))
deriving DecidableEq

/-- `Player::new` (`src/analysis/src/lib.rs:96-108`). -/
def Player.new (id : PlayerGlobalId) : Player :=
  { id := id
    connection_status := .disconnected
    name := ""
    team := none
    cls := none
    stats := (0, 0, 0)
    kill_streaks := []
    weapon_breakdown := [] }

/-- `enum Round` (`src/analysis/src/lib.rs:126-139`). -/
inductive Round where
  | active (allies_kills : Nat) (axis_kills : Nat) (start_time : GameTime)
  | completed (start_time : GameTime) (end_time : GameTime) (winner_stats : Option (Team × Nat))
deriving DecidableEq

/-- `enum RoundState` of the `dod` crate revision the analysis is written
against (`src/src/dod.rs:457-463`): tag 1 is named `Normal` there (the newer
decoder revision calls the same tag `Start`). -/
inductive RoundState where
  | reset
  | normal
  | alliesWin
  | axisWin
  | draw
deriving DecidableEq

/-- `struct TeamScores` (`src/analysis/src/lib.rs:170-197`). Note that
`current_scores` is written by no function other than `reset` (which clears
it); `add_team_score` only appends to `timeline`. -/
structure TeamScores where
  current_scores : List (Team × Int)
  timeline : List (GameTime × Team × Int)
deriving DecidableEq

/-- `TeamScores::get_team_score`: the points of the last timeline entry for the
team, or 0 (`rfind`). -/
def TeamScores.get_team_score (ts : TeamScores) (team : Team) : Int :=
  match ts.timeline.reverse.find? (fun e => decide (e.2.1 = team)) with
  | some e => e.2.2
  | none => 0

/-- `TeamScores::reset`: clears both `current_scores` and `timeline`. -/
def TeamScores.reset (_ts : TeamScores) : TeamScores :=
  { current_scores := [], timeline := [] }

/-- `enum ClanMatchDetection` (`src/analysis/src/lib.rs:199-207`). -/
inductive ClanMatchDetection where
  | waitingForReset
  | waitingForNormal (reset_time : GameTime)
  | matchIsLive
deriving DecidableEq

/-- The variants of `dod::Message` consumed by the update functions, with their
payload fields. The remaining recognized message kinds are all matched by `_`
in every update function and are collapsed into the single behaviourally
equivalent constructor `otherMessage`. -/
inductive Message where
  | pClass (client_index : Nat) (cls : Dod.Class)
  | pTeam (client_index : Nat) (team : Team)
  | scoreShort (client_index : Nat) (score : Int) (kills : Int) (deaths : Int)
  | objScore (client_index : Nat) (score : Int)
  | frags (client_index : Nat) (frags : Int)
  | deathMsg (killer_client_index : Nat) (victim_client_index : Nat) (weapon : Weapon)
  | teamScore (team : Team) (score : Nat)
  | roundState (round_state : RoundState)
  | clanTimer (t : Duration)
  | otherMessage
deriving DecidableEq

/-- The engine messages consumed by the update functions. `SvcTime` carries an
`f32` number of seconds in the source, modelled here by the nanosecond value
`Duration::from_secs_f32` rounds it to (the `time > 0.0` test becomes `0 < time`
on that value); `SvcUpdateUserInfo` carries the slot index, the connection id
(4-byte in the source) and the userinfo blob (assumed valid UTF-8, as the
source falls back to an empty field list otherwise). All other engine messages
are ignored by every update function and collapse into
`otherEngineMessage`. -/
inductive EngineMessage where
  | svcTime (time : Duration)
  | svcUpdateUserInfo (index : Nat) (id : Nat) (user_info : String)
  | otherEngineMessage
deriving DecidableEq

/-- `enum AnalyzerEvent` (`src/analysis/src/lib.rs:141-146`). -/
inductive AnalyzerEvent where
  | initialization
  | engineMessage (msg : EngineMessage)
  | userMessage (msg : Message)
  | finalization
deriving DecidableEq

/-- `struct AnalyzerState` (`src/analysis/src/lib.rs:148-155`). -/
structure AnalyzerState where
  clan_match_detection : ClanMatchDetection
  current_time : GameTime
  players : List Player
  rounds : List Round
  team_scores : TeamScores
deriving DecidableEq

/-- `AnalyzerState::default()`: every field at its `Default`. -/
def AnalyzerState.initial : AnalyzerState :=
  { clan_match_detection := .waitingForReset
    current_time := { offset := 0 }
    players := []
    rounds := []
    team_scores := { current_scores := [], timeline := [] } }

instance : Inhabited AnalyzerState := ⟨AnalyzerState.initial⟩

/-- The Rust panics the fold can hit: the `expect`/`panic!` in
`use_rounds_updates` on a round win without an active round, and the
`Duration` subtraction underflow panic in the clan-match timeout check. -/
inductive Panic where
  | roundsNoActive
  | durationUnderflow
deriving DecidableEq

/-- Whether a player is `Connected { client_id }` with the given id (the
predicate of `find_player_by_client_index`). -/
def isConnectedTo (client_index : Nat) (player : Player) : Bool :=
  match player.connection_status with
  | .connected client_id => client_id == client_index
  | .disconnected => false

/-- `AnalyzerState::find_player_by_client_index` (`src/analysis/src/lib.rs:253-261`):
linear scan for the first connected player in the slot. -/
def AnalyzerState.find_player_by_client_index (s : AnalyzerState) (client_index : Nat) : Option Player :=
  s.players.find? (isConnectedTo client_index)

/-- Application of a function to the first matching list element: the effect of
mutating through `iter_mut().find(...)` (the `_mut` lookups). -/
def updateFirst (q : Player → Bool) (f : Player → Player) : List Player → List Player
  | [] => []
  | p :: ps => if q p then f p :: ps else p :: updateFirst q f ps

/-- The wire's 1-based client index decremented by 1 as a `u8`
(`client_index - 1` wraps: 0 becomes 255). -/
def dec1 (i : Nat) : Nat := (i + 255) % 256

/-- `use_timing_updates` (`src/analysis/src/lib.rs:305-315`): on `SvcTime` with
positive time, overwrite the current offset (no monotonicity test). -/
def use_timing_updates (state : AnalyzerState) (event : AnalyzerEvent) : AnalyzerState :=
  match event with
  | .engineMessage (.svcTime time) =>
    if 0 < time then
      { state with current_time := { state.current_time with offset := time } }
    else state
  | _ => state

/-- `Char` membership in the `['\0', '\\']` pattern of `trim_matches`. -/
def isTrimChar (c : Char) : Bool := c == '\x00' || c == '\\'

/-- `str::trim_matches(['\0', '\\'])`: strip those characters from both ends. -/
def trimMatches (cs : List Char) : List Char :=
  ((cs.dropWhile isTrimChar).reverse.dropWhile isTrimChar).reverse

/-- Worker for `splitOnBackslash`. -/
def splitBackslashAux (cur : List Char) : List Char → List (List Char)
  | [] => [cur.reverse]
  | c :: cs =>
    if c == '\\' then cur.reverse :: splitBackslashAux [] cs
    else splitBackslashAux (c :: cur) cs

/-- `str::split("\\")`: split on each backslash; the empty string yields one
empty piece, like Rust. -/
def splitOnBackslash (cs : List Char) : List (List Char) :=
  splitBackslashAux [] cs

/-- `chunks_exact(2)` paired up; a trailing odd element is dropped. -/
def chunkPairs {α : Type} : List α → List (α × α)
  | a :: b :: rest => (a, b) :: chunkPairs rest
  | _ => []

/-- `HashMap::insert`: replace the value of an existing key, else add the
entry. -/
def insertField (m : List (String × String)) (k v : String) : List (String × String) :=
  if m.any (fun e => e.1 == k) then
    m.map (fun e => if e.1 == k then (k, v) else e)
  else m ++ [(k, v)]

/-- `HashMap::get` on the field map. -/
def getField (m : List (String × String)) (k : String) : Option String :=
  (m.find? (fun e => e.1 == k)).map (fun e => e.2)

/-- The userinfo field-map construction of `use_player_updates`
(`src/analysis/src/lib.rs:324-336`): trim `\0`/`\`, split on `\`, pair up,
fold into a map. -/
def parse_user_info (s : String) : List (String × String) :=
  ((chunkPairs ((splitOnBackslash (trimMatches s.data)).map String.mk)).foldl
    (fun m kv => insertField m kv.1 kv.2) [])

/-- `impl TryFrom<&str> for Team` (`src/dod`): the userinfo `team` field
values. -/
def teamTryFromStr (value : String) : Option Team :=
  match value with
  | "allies" => some .allies
  | "axis" => some .axis
  | "spectators" => some .spectators
  | _ => none

/-- Lower-case hex digit. -/
def hexDigitChar (n : Nat) : Char :=
  if n < 10 then Char.ofNat (48 + n) else Char.ofNat (87 + n)

/-- Two-digit lower-case hex rendering of a byte. -/
def byteHex (b : Nat) : List Char := [hexDigitChar (b / 16 % 16), hexDigitChar (b % 16)]

/-- The four little-endian bytes of the connection id. -/
def u32le (id : Nat) : List Nat :=
  [id % 256, id / 256 % 256, id / 65536 % 256, id / 16777216 % 256]

/-- The UUID fallback of `use_player_updates` (`src/analysis/src/lib.rs:358-373`):
the connection id's 4 little-endian bytes repeated four times, rendered by
`Uuid::simple()` as 32 lower-case hex digits (the seed is always 16 bytes, so
the `Uuid::new_v4()` fallback is never taken). -/
def uuid_simple_from_connection_id (id : Nat) : String :=
  String.mk (((u32le id ++ u32le id ++ u32le id ++ u32le id).map byteHex).flatten)

/-- `use_player_updates` (`src/analysis/src/lib.rs:317-416`). Note the source
`return`s inside the empty-fields branch only when a player occupies the slot;
otherwise control falls through to the identity-derivation path. -/
def use_player_updates (state : AnalyzerState) (event : AnalyzerEvent) : AnalyzerState :=
  match event with
  | .engineMessage (.svcUpdateUserInfo index id user_info) =>
    let fields := parse_user_info user_info
    if fields.isEmpty && (state.find_player_by_client_index index).isSome then
      let players' := updateFirst (isConnectedTo index)
        (fun p => { p with connection_status := .disconnected }) state.players
      { state with players := players' }
    else if getField fields "*hltv" == some "1" then
      state
    else
      let pid : PlayerGlobalId := ⟨(getField fields "*sid").getD (uuid_simple_from_connection_id id)⟩
      let player_name := (getField fields "name").getD ("Player " ++ toString id)
      let players1 :=
        if (state.players.find? (fun p => p.id == pid)).isNone then
          state.players ++ [Player.new pid]
        else state.players
      let players2 := updateFirst (isConnectedTo index)
        (fun p => { p with connection_status := .disconnected }) players1
      let players3 := updateFirst (fun p => p.id == pid)
        (fun p => { p with
          connection_status := .connected index
          name := player_name
          team := (getField fields "team").bind teamTryFromStr }) players2
      { state with players := players3 }
  | _ => state

/-- `use_scoreboard_updates` (`src/analysis/src/lib.rs:418-466`). -/
def use_scoreboard_updates (state : AnalyzerState) (event : AnalyzerEvent) : AnalyzerState :=
  match event with
  | .userMessage (.pClass client_index cls) =>
    let players' := updateFirst (isConnectedTo (dec1 client_index))
      (fun p => { p with cls := some cls }) state.players
    { state with players := players' }
  | .userMessage (.pTeam client_index team) =>
    let players' := updateFirst (isConnectedTo (dec1 client_index))
      (fun p => { p with team := some team }) state.players
    { state with players := players' }
  | .userMessage (.scoreShort client_index score kills deaths) =>
    let players' := updateFirst (isConnectedTo (dec1 client_index))
      (fun p => { p with stats := (score, kills, deaths) }) state.players
    { state with players := players' }
  | .userMessage (.objScore client_index score) =>
    let players' := updateFirst (isConnectedTo (dec1 client_index))
      (fun p => { p with stats := (score, p.stats.2.1, p.stats.2.2) }) state.players
    { state with players := players' }
  | .userMessage (.frags client_index f) =>
    let players' := updateFirst (isConnectedTo (dec1 client_index))
      (fun p => { p with stats := (p.stats.1, f, p.stats.2.2) }) state.players
    { state with players := players' }
  | _ => state

/-- The `is_teamkill` computation appearing identically in
`use_kill_streak_updates` (`src/analysis/src/lib.rs:475-478`) and
`use_weapon_breakdown_updates` (`src/analysis/src/lib.rs:517-520`): both
lookups succeed and the `Option<Team>` fields are equal (note `None == None`
counts as equal). -/
def is_teamkill (state : AnalyzerState) (killer_client_index victim_client_index : Nat) : Bool :=
  match state.find_player_by_client_index (dec1 killer_client_index),
        state.find_player_by_client_index (dec1 victim_client_index) with
  | some fst, some snd => fst.team == snd.team
  | _, _ => false

/-- Appending an empty `KillStreak` to a player (ends the active streak). -/
def pushEmptyStreak (p : Player) : Player :=
  { p with kill_streaks := p.kill_streaks ++ [{ kills := [] }] }

/-- Push a kill onto the last streak of the list (`iter_mut().last()`); no-op
on an empty list. -/
def appendToLastStreak (t : GameTime) (w : Weapon) (ks : List KillStreak) : List KillStreak :=
  match ks.getLast? with
  | some last => ks.dropLast ++ [{ kills := last.kills ++ [(t, w)] }]
  | none => ks

/-- `use_kill_streak_updates` (`src/analysis/src/lib.rs:468-510`). -/
def use_kill_streak_updates (state : AnalyzerState) (event : AnalyzerEvent) : AnalyzerState :=
  match event with
  | .userMessage (.deathMsg killer_ci victim_ci weapon) =>
    let current_time := state.current_time
    let tk := is_teamkill state killer_ci victim_ci
    let playersV := updateFirst (isConnectedTo (dec1 victim_ci)) pushEmptyStreak state.players
    let state := { state with players := playersV }
    if tk then state
    else
      let playersK := updateFirst (isConnectedTo (dec1 killer_ci))
        (fun p =>
          let ks := if p.kill_streaks.isEmpty then p.kill_streaks ++ [{ kills := [] }]
                    else p.kill_streaks
          { p with kill_streaks := appendToLastStreak current_time weapon ks }) state.players
      { state with players := playersK }
  | .userMessage (.roundState .reset) =>
    { state with players := state.players.map pushEmptyStreak }
  | _ => state

/-- `entry(weapon).or_insert((0, 0))` followed by the teamkill/kill
increment. -/
def bumpWeapon (wb : List (Weapon × (Nat × Nat))) (w : Weapon) (tk : Bool) :
    List (Weapon × (Nat × Nat)) :=
  if wb.any (fun e => e.1 == w) then
    wb.map (fun e =>
      if e.1 == w then (e.1, if tk then (e.2.1, e.2.2 + 1) else (e.2.1 + 1, e.2.2)) else e)
  else wb ++ [(w, if tk then (0, 1) else (1, 0))]

/-- `use_weapon_breakdown_updates` (`src/analysis/src/lib.rs:512-537`). -/
def use_weapon_breakdown_updates (state : AnalyzerState) (event : AnalyzerEvent) : AnalyzerState :=
  match event with
  | .userMessage (.deathMsg killer_ci victim_ci weapon) =>
    let tk := is_teamkill state killer_ci victim_ci
    let players' := updateFirst (isConnectedTo (dec1 killer_ci))
      (fun p => { p with weapon_breakdown := bumpWeapon p.weapon_breakdown weapon tk })
      state.players
    { state with players := players' }
  | _ => state

/-- `use_team_score_updates` (`src/analysis/src/lib.rs:539-547`):
`add_team_score` appends to the timeline (and touches nothing else). -/
def use_team_score_updates (state : AnalyzerState) (event : AnalyzerEvent) : AnalyzerState :=
  match event with
  | .userMessage (.teamScore team score) =>
    let timeline' := state.team_scores.timeline ++ [(state.current_time, team, (score : Int))]
    { state with team_scores := { state.team_scores with timeline := timeline' } }
  | _ => state

/-- `use_rounds_updates` (`src/analysis/src/lib.rs:549-681`). `Vec::pop` is
rendered with `getLast?`/`dropLast`; the `expect`/`panic!` on a round win
without an active tail round becomes `Panic.roundsNoActive`. On `Finalization`
with a `Completed` tail, the source pops the round and the failed `if let`
drops it. -/
def use_rounds_updates (state : AnalyzerState) (event : AnalyzerEvent) :
    Except Panic AnalyzerState :=
  match event with
  | .initialization =>
    if state.rounds.isEmpty then
      .ok { state with rounds := state.rounds ++ [.active 0 0 state.current_time] }
    else .ok state
  | .finalization =>
    match state.rounds.getLast? with
    | some (.active _ _ start_time) =>
      let rounds' := state.rounds.dropLast ++ [.completed start_time state.current_time none]
      .ok { state with rounds := rounds' }
    | some (.completed ..) =>
      .ok { state with rounds := state.rounds.dropLast }
    | none => .ok state
  | .userMessage (.roundState round_state) =>
    match round_state with
    | .reset =>
      .ok { state with rounds := state.rounds ++ [.active 0 0 state.current_time] }
    | .alliesWin | .axisWin =>
      match state.rounds.getLast? with
      | some (.active allies_kills axis_kills start_time) =>
        let winner_stats :=
          if round_state = .alliesWin then (Team.allies, allies_kills)
          else (Team.axis, axis_kills)
        let rounds' := state.rounds.dropLast
          ++ [.completed start_time state.current_time (some winner_stats)]
        .ok { state with rounds := rounds' }
      | some (.completed ..) => .error .roundsNoActive
      | none => .error .roundsNoActive
    | _ => .ok state
  | .userMessage (.deathMsg killer_ci victim_ci _) =>
    let killer := state.find_player_by_client_index (dec1 killer_ci)
    let victim := state.find_player_by_client_index (dec1 victim_ci)
    let kill_info : Option (Option Team × Bool) :=
      match killer, victim with
      | some killer, some victim =>
        some (killer.team, killer.team.isSome && killer.team == victim.team)
      | _, _ => none
    match state.rounds.getLast?, kill_info with
    | some (.active allies_kills axis_kills start_time), some (team, is_tk) =>
      if is_tk then .ok state
      else if team = some Team.allies then
        let rounds' := state.rounds.dropLast ++ [.active (allies_kills + 1) axis_kills start_time]
        .ok { state with rounds := rounds' }
      else
        let rounds' := state.rounds.dropLast ++ [.active allies_kills (axis_kills + 1) start_time]
        .ok { state with rounds := rounds' }
    | _, _ => .ok state
  | _ => .ok state

/-- `use_clan_match_detection_updates` (`src/analysis/src/lib.rs:683-775`).
The final `else` branch subtracts `Duration`s
(`current_time.offset - reset_time.offset`), which panics on underflow —
modelled as `Panic.durationUnderflow`. -/
def use_clan_match_detection_updates (max_normal_duration_from_reset : Duration)
    (state : AnalyzerState) (event : AnalyzerEvent) : Except Panic AnalyzerState :=
  match event with
  | .userMessage (.clanTimer _) =>
    match state.clan_match_detection with
    | .matchIsLive => .ok { state with clan_match_detection := .waitingForReset }
    | _ => .ok state
  | .userMessage (.roundState round_state) =>
    match state.clan_match_detection, round_state with
    | .waitingForReset, .reset =>
      .ok { state with clan_match_detection := .waitingForNormal state.current_time }
    | .waitingForNormal reset_time, .normal =>
      if state.players.all (fun player => player.stats.1 == 0)
          && state.team_scores.current_scores.all (fun e => e.2 == 0) then
        let players' := state.players.map
          (fun p => { p with kill_streaks := [], weapon_breakdown := [] })
        .ok { state with
          rounds := [.active 0 0 reset_time]
          team_scores := state.team_scores.reset
          players := players'
          clan_match_detection := .matchIsLive }
      else .ok state
    | _, _ => .ok state
  | _ =>
    match state.clan_match_detection with
    | .waitingForNormal reset_time =>
      if state.current_time.offset < reset_time.offset then
        .error .durationUnderflow
      else if max_normal_duration_from_reset < state.current_time.offset - reset_time.offset then
        .ok { state with clan_match_detection := .waitingForReset }
      else .ok state
    | _ => .ok state

/-- One fold step of `Analysis::from_bytes` (`src/analysis/src/lib.rs:221-232`):
the update functions applied in their fixed order, with the clan-match detector
parameterized by `Duration::from_secs(10)`. -/
def stepEvent (state : AnalyzerState) (event : AnalyzerEvent) : Except Panic AnalyzerState := do
  let state := use_timing_updates state event
  let state := use_player_updates state event
  let state := use_scoreboard_updates state event
  let state := use_kill_streak_updates state event
  let state := use_weapon_breakdown_updates state event
  let state := use_team_score_updates state event
  let state ← use_rounds_updates state event
  use_clan_match_detection_updates (Dod.durationFromSecs 10) state event

/-- The event fold of `Analysis::from_bytes` from a given state; a panic in any
step aborts the whole analysis. -/
def runFrom (s : AnalyzerState) : List AnalyzerEvent → Except Panic AnalyzerState
  | [] => .ok s
  | e :: es =>
    match stepEvent s e with
    | .ok s' => runFrom s' es
    | .error p => .error p

/-- The event fold of `Analysis::from_bytes`, from `AnalyzerState::default()`. -/
def runEvents (events : List AnalyzerEvent) : Except Panic AnalyzerState :=
  runFrom AnalyzerState.initial events

namespace TimeMod

/-- `struct GameTime` of `src/analysis/src/time.rs:6-13`: the two offsets. -/
structure GameTime where
  real_offset : Duration
  viewdemo_offset : Duration
deriving DecidableEq

/-- The events `use_timing_updates` of `src/analysis/src/time.rs` reacts to
(that file's `AnalyzerEvent` also has a `RealTimeChange` variant). -/
inductive Event where
  | svcTime (time : Duration)
  | realTimeChange (value : Duration)
  | otherEvent
deriving DecidableEq

/-- `use_timing_updates` (`src/analysis/src/time.rs:31-49`), restricted to the
only state field it reads or writes (`current_time`). Both branches guard on
`offset > current.real_offset || current.real_offset == Duration::ZERO`; the
`SvcTime` branch then writes `viewdemo_offset`. -/
def use_timing_updates (current : GameTime) (event : Event) : GameTime :=
  match event with
  | .svcTime time =>
    if current.real_offset < time ∨ current.real_offset = 0 then
      { current with viewdemo_offset := time }
    else current
  | .realTimeChange value =>
    if current.real_offset < value ∨ current.real_offset = 0 then
      { current with real_offset := value }
    else current
  | .otherEvent => current

end TimeMod

/-- `u64::from_str` as used by `str::parse::<u64>()`: an optional leading `+`,
then one or more ASCII digits, rejecting values outside `u64` range. -/
def parseU64? (s : String) : Option Nat :=
  let cs := match s.data with
    | '+' :: rest => rest
    | cs => cs
  if cs.isEmpty then none
  else if cs.all Char.isDigit then
    let v := cs.foldl (fun a c => a * 10 + (c.toNat - 48)) 0
    if v < 18446744073709551616 then some v else none
  else none

/-- `PlayerGlobalId::as_steam_id` (`src/analysis/src/lib.rs:31-45`), identical
to `SteamId::try_from` in `src/analysis/src/player.rs:82-98`. A failed
`parse::<u64>()` short-circuits to `None` (`.ok()?`). The source then computes
`id64 - 76561197960265728` in `u64`, which panics on underflow in a debug
build (`Except.error`); otherwise it renders
`STEAM_{universe}:{account_id & 1}:{account_id}` with `universe = 0`, where
`account_id` has been reassigned to `(id64 - base - server_id) / 2`. -/
def as_steam_id (g : PlayerGlobalId) : Except Unit (Option String) :=
  match parseU64? g.str with
  | none => .ok none
  | some id64 =>
    if id64 < 76561197960265728 then .error ()
    else
      let account_id := id64 - 76561197960265728
      let server_id := if account_id % 2 = 0 then 0 else 1
      let account_id2 := (account_id - server_id) / 2
      .ok (some ("STEAM_0:" ++ toString (account_id2 % 2) ++ ":" ++ toString account_id2))

/-- The `Ok` state of a fold result, if any. -/
def stateOf (r : Except Panic AnalyzerState) : Option AnalyzerState := r.toOption

/-- Number of players reporting `Connected` with the given client id. -/
def countConnected (client_id : Nat) : List Player → Nat
  | [] => 0
  | p :: ps => (if isConnectedTo client_id p then 1 else 0) + countConnected client_id ps

/-- The connection statuses of a player list, in order. -/
def statusesOf (players : List Player) : List ConnectionStatus :=
  players.map (fun p => p.connection_status)

/-- Number of `Connected client_id` entries in a status list. -/
def countStatuses (client_id : Nat) : List ConnectionStatus → Nat
  | [] => 0
  | st :: sts =>
    (match st with
     | .connected c => if c == client_id then 1 else 0
     | .disconnected => 0) + countStatuses client_id sts

/-- Whether a round is the `Active` variant. -/
def Round.isActive : Round → Bool
  | .active .. => true
  | .completed .. => false

/-- Number of `Active` elements of a rounds list. -/
def countActive (rounds : List Round) : Nat :=
  (rounds.filter Round.isActive).length

/-- The rounds list has no `Active` element outside the tail position (this is
exactly: at most one `Active`, and only at the tail). -/
def activeOnlyAtTail (rounds : List Round) : Bool :=
  rounds.dropLast.all (fun r => !r.isActive)

/-- Whether the tail round exists and is `Active`. -/
def tailIsActive (rounds : List Round) : Bool :=
  match rounds.getLast? with
  | some r => r.isActive
  | none => false

/-- Whether an event is not a `RoundState::Reset` user message. -/
def notResetEvent (e : AnalyzerEvent) : Bool :=
  match e with
  | .userMessage (.roundState .reset) => false
  | _ => true

/-- No `RoundState::Reset` user message occurs in the event list. -/
def noReset (events : List AnalyzerEvent) : Bool :=
  events.all notResetEvent

/-- The `SvcTime` values in the event list are bounded below by `c` and
non-decreasing along the list. -/
def nonDecFrom (c : Duration) : List AnalyzerEvent → Bool
  | [] => true
  | .engineMessage (.svcTime t) :: rest => decide (c ≤ t) && nonDecFrom t rest
  | _ :: rest => nonDecFrom c rest

/-- Total number of kills recorded across a player's streaks. -/
def totalStreakKills (p : Player) : Nat :=
  (p.kill_streaks.map (fun ks => ks.kills.length)).sum

/-- Two connected players, neither of which has a team assignment (supporting
the analysis of the teamkill classification). -/
def c4State : AnalyzerState :=
  { AnalyzerState.initial with players :=
      [{ Player.new ⟨"a"⟩ with connection_status := .connected 0 },
       { Player.new ⟨"b"⟩ with connection_status := .connected 1 }] }

/-- An event trace with slot churn: two different identities successively claim
slot 0 (supporting the slot-uniqueness witness). -/
def c6Events : List AnalyzerEvent :=
  [.initialization,
   .engineMessage (.svcUpdateUserInfo 0 7 "\\name\\Alice\\*sid\\76561197960269086\\team\\allies"),
   .engineMessage (.svcUpdateUserInfo 0 8 "\\name\\Bob\\*sid\\76561197960269100")]

/-- The state reached by `c6Events`. -/
def c6State : AnalyzerState :=
  match runEvents c6Events with
  | .ok s => s
  | .error _ => AnalyzerState.initial

/-- A Reset-free event trace (supporting the round-tail witness). -/
def c3Events : List AnalyzerEvent :=
  [.initialization, .userMessage (.roundState .normal), .finalization]

/-- The state reached by `c3Events`. -/
def c3State : AnalyzerState :=
  match runEvents c3Events with
  | .ok s => s
  | .error _ => AnalyzerState.initial

/-- The invariant behind the timeout check: whenever the detector is
`WaitingForNormal { reset_time }`, the captured reset time does not exceed the
current time. -/
def resetTimeBounded (s : AnalyzerState) : Prop :=
  ∀ rt, s.clan_match_detection = .waitingForNormal rt → rt.offset ≤ s.current_time.offset

/-- The current offset after one driver step, under the assumption that an
`SvcTime` value is at least the current offset. -/
def timeTarget (s : AnalyzerState) (e : AnalyzerEvent) : Duration :=
  match e with
  | .engineMessage (.svcTime t) => t
  | _ => s.current_time.offset

namespace Dod

/-- `all_consuming` never leaves input behind. -/
theorem restEmpty_allConsuming {α : Type} (p : Parser α) : RestEmpty (allConsuming p) := by
  intro i a r h
  unfold allConsuming at h
  split at h
  · cases h; rfl
  · exact Option.noConfusion h

/-- Post-composing a parser with a pure map preserves `RestEmpty`. -/
theorem restEmpty_pBind_pure {α β : Type} (p : Parser α) (f : α → β) (hp : RestEmpty p) :
    RestEmpty (p >>= fun a => pure (f a)) := by
  intro i a r h
  change pBind p (fun a => pPure (f a)) i = some (a, r) at h
  unfold pBind at h
  split at h
  case h_1 a' r' heq =>
    unfold pPure at h
    cases h
    exact hp _ _ _ heq
  case h_2 => exact Option.noConfusion h

/-- `map_res` preserves `RestEmpty`. -/
theorem restEmpty_mapRes {α β : Type} (p : Parser α) (f : α → Option β) (hp : RestEmpty p) :
    RestEmpty (mapRes p f) := by
  intro i a r h
  unfold mapRes at h
  split at h
  case h_1 a' r' heq =>
    split at h
    · cases h; exact hp _ _ _ heq
    · exact Option.noConfusion h
  case h_2 => exact Option.noConfusion h

/-- An `eof`-guarded constant parser never leaves input behind. -/
theorem restEmpty_pEofThen {α : Type} (c : α) :
    RestEmpty ((pEof : Parser Unit) >>= fun _ => pure c) := by
  intro i a r h
  change pBind pEof (fun _ => pPure c) i = some (a, r) at h
  cases i with
  | nil =>
    unfold pBind pEof pPure at h
    simp at h
    exact h.2
  | cons b bs =>
    unfold pBind pEof at h
    simp [List.isEmpty] at h

end Dod

/-- C8 counterexample: the claim asserts every recognized message other than
`ServerName` and `Motd` rejects leftover bytes, "in particular ClanTimer and
ClientAreas".  But a `ClanTimer` payload `[30, 99]` decodes successfully with
the byte `99` left unconsumed, and a `ClientAreas` payload `[0, 0, 7]` decodes
successfully with the byte `7` left unconsumed. -/
theorem c8_counterexample :
    Dod.UserMessage.new "ClanTimer" [30, 99]
        = some (Dod.UserMessage.clanTimer 30000000000, [99]) ∧
      Dod.UserMessage.new "ClientAreas" [0, 0, 7]
        = some (Dod.UserMessage.clientAreas 0 none, [7]) :=
  ⟨rfl, rfl⟩

/-- C8 (amended): for every recognized user-message name other than
`ServerName`, `Motd`, `ClanTimer` and `ClientAreas`, a successful decode
consumes the whole payload, so a payload with leftover bytes after the
message's grammar is rejected.  (`ClanTimer` and `ClientAreas` accept and
silently discard leftover bytes.) -/
theorem c8_amended (name : String) (data : List Dod.Byte) (m : Dod.UserMessage)
    (rest : List Dod.Byte)
    (h1 : name ≠ "ServerName") (h2 : name ≠ "MOTD") (h3 : name ≠ "ClanTimer")
    (h4 : name ≠ "ClientAreas")
    (hnew : Dod.UserMessage.new name data = some (m, rest)) : rest = [] := by
  unfold Dod.UserMessage.new at hnew
  split at hnew <;>
    first
      | exact absurd rfl h1
      | exact absurd rfl h2
      | exact absurd rfl h3
      | exact absurd rfl h4
      | exact Option.noConfusion hnew
      | exact Dod.restEmpty_allConsuming _ _ _ _ hnew
      | exact Dod.restEmpty_pEofThen _ _ _ _ hnew
      | exact Dod.restEmpty_mapRes _ _ (Dod.restEmpty_allConsuming _) _ _ _ hnew
      | exact Dod.restEmpty_pBind_pure _ _ (Dod.restEmpty_allConsuming _) _ _ _ hnew

/-- C8 witness: the amended theorem applied at the concrete recognized message
`DeathMsg` with payload `[1, 2, 5]`, which decodes with empty remainder. -/
theorem c8_witness :
    Dod.UserMessage.new "DeathMsg" [1, 2, 5]
        = some (Dod.UserMessage.deathMsg 1 2 .garand, []) ∧
      ([] : List Dod.Byte) = [] :=
  ⟨rfl, c8_amended "DeathMsg" [1, 2, 5] (Dod.UserMessage.deathMsg 1 2 .garand) []
    (by decide) (by decide) (by decide) (by decide) rfl⟩

/-- C1: the claim requires the `WaitingForNormal → MatchIsLive` transition to
fire only when every team's current score is zero.  The guard in the source
iterates over `team_scores.current_scores`, which no code path ever populates
(`add_team_score` appends only to `timeline`), so the team-score condition is
vacuous.  Concretely: after `Initialization`, `TeamScore{Allies, 5}`,
`RoundState::Reset`, the Allies' current score (`get_team_score`) is 5 and the
detector is `WaitingForNormal`; processing `RoundState::Normal` nevertheless
transitions to `MatchIsLive` (performing the claimed side-effects). -/
theorem c1_clan_guard_ignores_team_scores :
    (stateOf (runEvents [.initialization, .userMessage (.teamScore .allies 5),
        .userMessage (.roundState .reset)])).map
          (fun s => (s.team_scores.get_team_score .allies, s.clan_match_detection))
        = some (5, .waitingForNormal ⟨0⟩) ∧
      (stateOf (runEvents [.initialization, .userMessage (.teamScore .allies 5),
        .userMessage (.roundState .reset), .userMessage (.roundState .normal)])).map
          (fun s => (s.clan_match_detection, s.rounds, s.team_scores.timeline))
        = some (.matchIsLive, [.active 0 0 ⟨0⟩], []) := by
  refine ⟨?_, ?_⟩ <;> decide

/-- C2 counterexample: the claim says an `SvcTime` value `t ≤` the current
viewdemo offset leaves the current time unchanged.  In the pipeline's timing
update (`src/analysis/src/lib.rs`), a state at offset 5 s processing
`SvcTime 2.0` is overwritten to 2 s.  In the `src/analysis/src/time.rs`
variant, the guard compares against `real_offset`, not the viewdemo offset:
with `real_offset = 0` and `viewdemo_offset = 5 s`, `SvcTime 2.0` overwrites
the viewdemo offset to 2 s; and with `real_offset = 5 s`,
`viewdemo_offset = 1 s`, `SvcTime 2.0 > viewdemo` is ignored. -/
theorem c2_counterexample :
    (use_timing_updates { AnalyzerState.initial with current_time := ⟨5000000000⟩ }
        (.engineMessage (.svcTime 2000000000))).current_time.offset = 2000000000 ∧
      TimeMod.use_timing_updates ⟨0, 5000000000⟩ (.svcTime 2000000000) = ⟨0, 2000000000⟩ ∧
      TimeMod.use_timing_updates ⟨5000000000, 1000000000⟩ (.svcTime 2000000000)
        = ⟨5000000000, 1000000000⟩ := by
  refine ⟨?_, ?_, ?_⟩ <;> decide

/-- C2 (amended): the pipeline's timing update (`src/analysis/src/lib.rs`)
sets the offset to `Duration::from_secs_f32(t)` unconditionally whenever
`t > 0` — there is no monotonic clamp; the `src/analysis/src/time.rs` variant
sets the viewdemo offset exactly when `t` exceeds the current `real_offset` or
the `real_offset` is zero (the clamp reads the real offset, not the viewdemo
offset). -/
theorem c2_amended :
    (∀ (s : AnalyzerState) (t : Duration),
        use_timing_updates s (.engineMessage (.svcTime t))
          = if 0 < t then { s with current_time := { s.current_time with offset := t } } else s) ∧
      (∀ (c : TimeMod.GameTime) (t : Duration),
        TimeMod.use_timing_updates c (.svcTime t)
          = if c.real_offset < t ∨ c.real_offset = 0 then { c with viewdemo_offset := t } else c) :=
  ⟨fun _ _ => rfl, fun _ _ => rfl⟩

/-- C3 counterexample: after `Initialization` (which pushes an Active round
into the empty list) followed by `RoundState::Reset` (which pushes another
Active round unconditionally), the rounds list holds two Active elements, one
of them not at the tail. -/
theorem c3_counterexample :
    (stateOf (runEvents [.initialization, .userMessage (.roundState .reset)])).map
        (fun s => (countActive s.rounds, activeOnlyAtTail s.rounds))
      = some (2, false) := by decide

/-- C5: the claim says an empty userinfo blob only disconnects the slot's
occupant and appends no new player.  When the slot is vacant, the source's
empty-fields branch finds no player and falls through (its `return` is inside
the `if let`): from the initial state, `SvcUpdateUserInfo{index: 0, id: 7,
userinfo: ""}` appends a brand-new player with the UUID-derived identity and
name `Player 7`, connected in slot 0 — contradicting both the claim and the
source's own comment ("we only update their connection status"). -/
theorem c5_empty_userinfo_creates_ghost_player :
    (use_player_updates AnalyzerState.initial
        (.engineMessage (.svcUpdateUserInfo 0 7 ""))).players
      = [{ Player.new ⟨"07000000070000000700000007000000"⟩ with
            connection_status := .connected 0
            name := "Player 7" }] := by decide

/-- C9: the claim (and the reference implementation cited in the source
comment) derives `STEAM_0:Y:Z` with `Y = account & 1`, `Z = account >> 1`.
The source instead prints `account_id & 1` after reassigning
`account_id := account >> 1`, i.e. `Y = (account >> 1) & 1`.  For
`id64 = 76561197960265729` (`account = 1`) the claim gives `STEAM_0:1:0` but
the code yields `STEAM_0:0:0`; for the id64 `76561197960269086`, whose correct
rendering `STEAM_0:0:1679` is listed in the source's own comment table
(`src/analysis/src/player.rs:157`), the code yields `STEAM_0:1:1679`.
Moreover the code has no `id64 ≥ 76561197960265728` guard: `"5"` parses and
then panics on `u64` underflow instead of the projection being undefined. -/
theorem c9_steam_id_formula_divergence :
    as_steam_id ⟨"76561197960265729"⟩ = .ok (some "STEAM_0:0:0") ∧
      "STEAM_0:0:0" ≠ "STEAM_0:1:0" ∧
      as_steam_id ⟨"76561197960269086"⟩ = .ok (some "STEAM_0:1:1679") ∧
      as_steam_id ⟨"5"⟩ = .error () :=
  ⟨rfl, by decide, rfl, rfl⟩

/-- C10 counterexample: the claimed invariant ("the timeout subtraction never
underflows") fails because the timing update has no monotonic clamp.  After
`SvcTime 5.0`, `RoundState::Reset` (capturing `reset_time = 5 s`), the engine
rewinds with `SvcTime 2.0`; the clan-match timeout check then computes
`2 s - 5 s`, which panics. -/
theorem c10_counterexample :
    runEvents [.engineMessage (.svcTime 5000000000), .userMessage (.roundState .reset),
        .engineMessage (.svcTime 2000000000)]
      = .error .durationUnderflow := rfl

/-- C4 counterexample: in `c4State` both connected players have `team = None`;
the claim says this must not count as a teamkill (teams "not None" required),
yet `is_teamkill` returns true (`None == None`), the killer's weapon breakdown
records a teamkill `(0, 1)`, and the killer's streaks receive no kill. -/
theorem c4_counterexample :
    ((c4State.players.map (fun p => p.team)) = [none, none]) ∧
      is_teamkill c4State 1 2 = true ∧
      (use_weapon_breakdown_updates c4State
          (.userMessage (.deathMsg 1 2 .garand))).players.map (fun p => p.weapon_breakdown)
        = [[(.garand, (0, 1))], []] ∧
      (use_kill_streak_updates c4State
          (.userMessage (.deathMsg 1 2 .garand))).players.map totalStreakKills = [0, 0] := by
  refine ⟨?_, ?_, ?_, ?_⟩ <;> decide

/-- Mapping over `updateFirst` is invisible to any projection the updater
preserves. -/
theorem map_updateFirst {β : Type} (g : Player → β) (q : Player → Bool) (f : Player → Player)
    (hf : ∀ p, g (f p) = g p) : ∀ l : List Player, (updateFirst q f l).map g = l.map g := by
  intro l
  induction l with
  | nil => rfl
  | cons p ps ih =>
    unfold updateFirst
    by_cases hq : q p <;> simp [hq, hf, ih]

/-- Appending an empty streak does not change the recorded kill total. -/
theorem totalStreakKills_push (p : Player) :
    totalStreakKills (pushEmptyStreak p) = totalStreakKills p := by
  simp [totalStreakKills, pushEmptyStreak]

/-- C4 (amended): the kill-streak and weapon-breakdown updates classify a death
as a teamkill exactly when both killer and victim lookups succeed and the two
players' `team` fields are equal — including the case where both are `None`
(the source compares the raw `Option<Team>` values); and when classified as a
teamkill, no player's streak kill total grows (the killer's active streak is
not extended). -/
theorem c4_amended (s : AnalyzerState) (k v : Nat) :
    (is_teamkill s k v = true ↔
      ∃ pk pv, s.find_player_by_client_index (dec1 k) = some pk ∧
        s.find_player_by_client_index (dec1 v) = some pv ∧ pk.team = pv.team) ∧
      ∀ w, is_teamkill s k v = true →
        (use_kill_streak_updates s (.userMessage (.deathMsg k v w))).players.map totalStreakKills
          = s.players.map totalStreakKills := by
  constructor
  · unfold is_teamkill
    rcases hk : s.find_player_by_client_index (dec1 k) with _ | pk <;>
      rcases hv : s.find_player_by_client_index (dec1 v) with _ | pv <;>
        simp [hk, hv]
  · intro w h
    simp only [use_kill_streak_updates, h, if_true]
    exact map_updateFirst totalStreakKills _ _ totalStreakKills_push s.players

/-- C4 witness: the amended theorem applied at `c4State` (both players found,
both teams `None`), discharging the teamkill hypothesis by evaluation. -/
theorem c4_witness :
    is_teamkill c4State 1 2 = true ∧
      (use_kill_streak_updates c4State (.userMessage (.deathMsg 1 2 .garand))).players.map
          totalStreakKills = c4State.players.map totalStreakKills :=
  ⟨by decide, (c4_amended c4State 1 2).2 .garand (by decide)⟩

/-- C7: when a `RoundState::AlliesWin` or `RoundState::AxisWin` user message is
processed while the tail of the rounds list is not Active (including an empty
list), the driver step aborts with the rounds panic — no `Completed` round is
fabricated, and no state is produced. -/
theorem c7_win_without_active_aborts (s : AnalyzerState) (rs : RoundState)
    (hw : rs = .alliesWin ∨ rs = .axisWin) (ht : tailIsActive s.rounds = false) :
    stepEvent s (.userMessage (.roundState rs)) = .error .roundsNoActive := by
  unfold tailIsActive at ht
  rcases hw with rfl | rfl <;>
    · show (use_rounds_updates s (.userMessage (.roundState _)) >>= fun s7 =>
        use_clan_match_detection_updates (Dod.durationFromSecs 10) s7 _) = .error .roundsNoActive
      unfold use_rounds_updates
      rcases hl : s.rounds.getLast? with _ | r
      · rfl
      · rw [hl] at ht
        rcases r with ⟨ak, xk, st⟩ | ⟨st, et, ws⟩
        · simp [Round.isActive] at ht
        · rfl

/-- C7 witness: the theorem applied at the initial state (empty rounds list)
and `RoundState::AlliesWin`. -/
theorem c7_witness :
    tailIsActive AnalyzerState.initial.rounds = false ∧
      stepEvent AnalyzerState.initial (.userMessage (.roundState .alliesWin))
        = .error .roundsNoActive :=
  ⟨by decide,
    c7_win_without_active_aborts AnalyzerState.initial .alliesWin (Or.inl rfl) (by decide)⟩

/-- The timing update never touches the rounds list. -/
theorem timing_rounds (s : AnalyzerState) (e : AnalyzerEvent) :
    (use_timing_updates s e).rounds = s.rounds := by
  unfold use_timing_updates
  split
  · split <;> rfl
  · rfl

/-- The player update never touches the rounds list. -/
theorem player_rounds (s : AnalyzerState) (e : AnalyzerEvent) :
    (use_player_updates s e).rounds = s.rounds := by
  unfold use_player_updates
  split
  · dsimp only
    split
    · rfl
    · split <;> rfl
  · rfl

/-- The scoreboard update never touches the rounds list. -/
theorem scoreboard_rounds (s : AnalyzerState) (e : AnalyzerEvent) :
    (use_scoreboard_updates s e).rounds = s.rounds := by
  unfold use_scoreboard_updates
  split <;> rfl

/-- The kill-streak update never touches the rounds list. -/
theorem killstreak_rounds (s : AnalyzerState) (e : AnalyzerEvent) :
    (use_kill_streak_updates s e).rounds = s.rounds := by
  unfold use_kill_streak_updates
  split
  · dsimp only
    split <;> rfl
  · rfl
  · rfl

/-- The weapon-breakdown update never touches the rounds list. -/
theorem weapon_rounds (s : AnalyzerState) (e : AnalyzerEvent) :
    (use_weapon_breakdown_updates s e).rounds = s.rounds := by
  unfold use_weapon_breakdown_updates
  split <;> rfl

/-- The team-score update never touches the rounds list. -/
theorem teamscore_rounds (s : AnalyzerState) (e : AnalyzerEvent) :
    (use_team_score_updates s e).rounds = s.rounds := by
  unfold use_team_score_updates
  split <;> rfl

/-- Dropping the appended last element recovers the original list. -/
theorem dropLast_append_single {α : Type} (l : List α) (a : α) : (l ++ [a]).dropLast = l := by
  simp

/-- Replacing the tail element preserves the only-Active-at-tail property. -/
theorem activeOnlyAtTail_modifyTail (l : List Round) (x : Round)
    (h : activeOnlyAtTail l = true) : activeOnlyAtTail (l.dropLast ++ [x]) = true := by
  unfold activeOnlyAtTail at *
  rw [dropLast_append_single]
  rw [List.all_eq_true] at *
  intro r hr
  exact h r hr

/-- Popping the tail element preserves the only-Active-at-tail property. -/
theorem activeOnlyAtTail_dropLast (l : List Round) (h : activeOnlyAtTail l = true) :
    activeOnlyAtTail l.dropLast = true := by
  unfold activeOnlyAtTail at *
  rw [List.all_eq_true] at *
  intro r hr
  exact h r (List.dropLast_subset _ hr)

/-- A singleton rounds list trivially satisfies the tail property. -/
theorem activeOnlyAtTail_single (x : Round) : activeOnlyAtTail [x] = true := rfl

/-- The rounds update preserves the only-Active-at-tail property for every
event other than `RoundState::Reset`. -/
theorem rounds_tail (s s' : AnalyzerState) (e : AnalyzerEvent)
    (hne : notResetEvent e = true)
    (hinv : activeOnlyAtTail s.rounds = true)
    (h : use_rounds_updates s e = .ok s') : activeOnlyAtTail s'.rounds = true := by
  unfold use_rounds_updates at h
  cases e
  case initialization =>
    by_cases he : s.rounds.isEmpty = true <;> simp [he] at h
    · have hnil : s.rounds = [] := by
        cases hs : s.rounds
        · rfl
        · rw [hs] at he; simp at he
      rw [← h]
      simp [hnil, activeOnlyAtTail]
    · rw [← h]; exact hinv
  case engineMessage em =>
    injection h with h; subst h; exact hinv
  case finalization =>
    rcases hl : s.rounds.getLast? with _ | r
    · rw [hl] at h; injection h with h; subst h; exact hinv
    · rw [hl] at h
      rcases r with ⟨ak, xk, st⟩ | ⟨st, et, ws⟩
      · injection h with h; subst h
        exact activeOnlyAtTail_modifyTail _ _ hinv
      · injection h with h; subst h
        exact activeOnlyAtTail_dropLast _ hinv
  case userMessage um =>
    cases um
    case deathMsg k v w =>
      rcases hl : s.rounds.getLast? with _ | r
      · simp only [hl] at h
        injection h with h; subst h; exact hinv
      · rcases r with ⟨ak, xk, st⟩ | ⟨st, et, ws⟩
        · rcases hk : s.find_player_by_client_index (dec1 k) with _ | pk <;>
            rcases hv : s.find_player_by_client_index (dec1 v) with _ | pv <;>
              simp only [hl, hk, hv] at h
          · injection h with h; subst h; exact hinv
          · injection h with h; subst h; exact hinv
          · injection h with h; subst h; exact hinv
          · split at h
            · injection h with h; subst h; exact hinv
            · split at h <;>
                (injection h with h; subst h; exact activeOnlyAtTail_modifyTail _ _ hinv)
        · simp only [hl] at h
          injection h with h; subst h; exact hinv
    case roundState rs =>
      cases rs
      case reset => exact absurd hne (by decide)
      case normal => injection h with h; subst h; exact hinv
      case alliesWin =>
        rcases hl : s.rounds.getLast? with _ | r
        · rw [hl] at h; exact Except.noConfusion h
        · rw [hl] at h
          rcases r with ⟨ak, xk, st⟩ | ⟨st, et, ws⟩
          · injection h with h; subst h
            exact activeOnlyAtTail_modifyTail _ _ hinv
          · exact Except.noConfusion h
      case axisWin =>
        rcases hl : s.rounds.getLast? with _ | r
        · rw [hl] at h; exact Except.noConfusion h
        · rw [hl] at h
          rcases r with ⟨ak, xk, st⟩ | ⟨st, et, ws⟩
          · injection h with h; subst h
            exact activeOnlyAtTail_modifyTail _ _ hinv
          · exact Except.noConfusion h
      case draw => injection h with h; subst h; exact hinv
    all_goals (injection h with h; subst h; exact hinv)

/-- The clan-match update preserves the only-Active-at-tail property (when it
does not panic): the go-live transition replaces the list by a singleton. -/
theorem clan_tail (maxd : Duration) (s s' : AnalyzerState) (e : AnalyzerEvent)
    (hinv : activeOnlyAtTail s.rounds = true)
    (h : use_clan_match_detection_updates maxd s e = .ok s') :
    activeOnlyAtTail s'.rounds = true := by
  unfold use_clan_match_detection_updates at h
  split at h
  · split at h <;> (injection h with h; subst h; exact hinv)
  · split at h
    · injection h with h; subst h; exact hinv
    · split at h <;> (injection h with h; subst h)
      · exact activeOnlyAtTail_single _
      · exact hinv
    · injection h with h; subst h; exact hinv
  · split at h
    · split at h
      · exact Except.noConfusion h
      · split at h <;> (injection h with h; subst h; exact hinv)
    · injection h with h; subst h; exact hinv

/-- One driver step preserves the only-Active-at-tail property for every event
other than `RoundState::Reset`. -/
theorem step_preserves_tail (s s' : AnalyzerState) (e : AnalyzerEvent)
    (hne : notResetEvent e = true)
    (hinv : activeOnlyAtTail s.rounds = true)
    (hstep : stepEvent s e = .ok s') : activeOnlyAtTail s'.rounds = true := by
  have hstep' : (use_rounds_updates (use_team_score_updates (use_weapon_breakdown_updates
      (use_kill_streak_updates (use_scoreboard_updates (use_player_updates
      (use_timing_updates s e) e) e) e) e) e) e >>= fun s7 =>
      use_clan_match_detection_updates (Dod.durationFromSecs 10) s7 e) = .ok s' := hstep
  have h6 : (use_team_score_updates (use_weapon_breakdown_updates
      (use_kill_streak_updates (use_scoreboard_updates (use_player_updates
      (use_timing_updates s e) e) e) e) e) e).rounds = s.rounds := by
    rw [teamscore_rounds, weapon_rounds, killstreak_rounds, scoreboard_rounds,
      player_rounds, timing_rounds]
  rcases hr : use_rounds_updates (use_team_score_updates (use_weapon_breakdown_updates
      (use_kill_streak_updates (use_scoreboard_updates (use_player_updates
      (use_timing_updates s e) e) e) e) e) e) e with p | s7
  · rw [hr] at hstep'
    exact Except.noConfusion hstep'
  · rw [hr] at hstep'
    have hstep2 : use_clan_match_detection_updates (Dod.durationFromSecs 10) s7 e = .ok s' :=
      hstep'
    have hinv7 : activeOnlyAtTail s7.rounds = true :=
      rounds_tail _ s7 e hne (h6 ▸ hinv) hr
    exact clan_tail _ s7 s' e hinv7 hstep2

/-- The fold from any state satisfying the tail property keeps it along every
Reset-free event list. -/
theorem c3_aux (evs : List AnalyzerEvent) : ∀ s0 s : AnalyzerState, noReset evs = true →
    activeOnlyAtTail s0.rounds = true → runFrom s0 evs = .ok s →
    activeOnlyAtTail s.rounds = true := by
  induction evs with
  | nil =>
    intro s0 s _ h0 hr
    injection hr with hr
    subst hr
    exact h0
  | cons e es ih =>
    intro s0 s hnr h0 hr
    unfold runFrom at hr
    have hnr' : notResetEvent e = true ∧ noReset es = true := by
      unfold noReset at hnr
      rw [List.all_cons] at hnr
      exact ⟨(Bool.and_eq_true_iff.mp hnr).1, (Bool.and_eq_true_iff.mp hnr).2⟩
    rcases hstep : stepEvent s0 e with p | s1 <;> rw [hstep] at hr
    · exact Except.noConfusion hr
    · exact ih s1 s hnr'.2 (step_preserves_tail s0 s1 e hnr'.1 h0 hstep) hr

/-- Counting Active rounds distributes over appending a tail element. -/
theorem countActive_append (l : List Round) (a : Round) :
    countActive (l ++ [a]) = countActive l + (if a.isActive then 1 else 0) := by
  simp only [countActive, List.filter_append]
  split <;> simp_all [List.filter_cons]

/-- A list with no Active element counts zero Active rounds. -/
theorem countActive_zero (l : List Round) (h : l.all (fun r => !r.isActive) = true) :
    countActive l = 0 := by
  induction l with
  | nil => rfl
  | cons r rs ih =>
    rw [List.all_cons] at h
    obtain ⟨h1, h2⟩ := Bool.and_eq_true_iff.mp h
    have h1' : r.isActive = false := by
      cases hra : r.isActive
      · rfl
      · rw [hra] at h1; simp at h1
    simp only [countActive, List.filter_cons, h1']
    simp only [Bool.false_eq_true, if_false]
    exact ih h2

/-- The only-Active-at-tail property bounds the number of Active rounds by
one. -/
theorem countActive_le_one (l : List Round) (h : activeOnlyAtTail l = true) :
    countActive l ≤ 1 := by
  rcases List.eq_nil_or_concat l with rfl | ⟨l', a, rfl⟩
  · decide
  · rw [List.concat_eq_append] at h
    have hd := h
    unfold activeOnlyAtTail at hd
    rw [dropLast_append_single] at hd
    rw [List.concat_eq_append, countActive_append, countActive_zero l' hd]
    split <;> omega

/-- C3 (amended): for every sequence of events containing no
`RoundState::Reset` message, after each event the rounds list contains at most
one Active element, and any Active element is at the tail.  (A Reset pushes a
fresh Active round without completing an existing Active tail, so the
unrestricted claim fails — see the counterexample.) -/
theorem c3_amended (evs : List AnalyzerEvent) (s : AnalyzerState)
    (hnr : noReset evs = true) (hrun : runEvents evs = .ok s) :
    countActive s.rounds ≤ 1 ∧ activeOnlyAtTail s.rounds = true := by
  have h := c3_aux evs AnalyzerState.initial s hnr (by decide) hrun
  exact ⟨countActive_le_one _ h, h⟩

/-- C3 witness: the amended theorem applied to the concrete Reset-free trace
`c3Events`. -/
theorem c3_witness :
    noReset c3Events = true ∧ runEvents c3Events = .ok c3State ∧
      (countActive c3State.rounds ≤ 1 ∧ activeOnlyAtTail c3State.rounds = true) :=
  ⟨by decide, rfl, c3_amended c3Events c3State (by decide) rfl⟩

theorem timing_clan (s : AnalyzerState) (e : AnalyzerEvent) :
    (use_timing_updates s e).clan_match_detection = s.clan_match_detection := by
  unfold use_timing_updates
  split
  · split <;> rfl
  · rfl

theorem player_clan (s : AnalyzerState) (e : AnalyzerEvent) :
    (use_player_updates s e).clan_match_detection = s.clan_match_detection := by
  unfold use_player_updates
  split
  · dsimp only
    split
    · rfl
    · split <;> rfl
  · rfl

theorem scoreboard_clan (s : AnalyzerState) (e : AnalyzerEvent) :
    (use_scoreboard_updates s e).clan_match_detection = s.clan_match_detection := by
  unfold use_scoreboard_updates
  split <;> rfl

theorem killstreak_clan (s : AnalyzerState) (e : AnalyzerEvent) :
    (use_kill_streak_updates s e).clan_match_detection = s.clan_match_detection := by
  unfold use_kill_streak_updates
  split
  · dsimp only
    split <;> rfl
  · rfl
  · rfl

theorem weapon_clan (s : AnalyzerState) (e : AnalyzerEvent) :
    (use_weapon_breakdown_updates s e).clan_match_detection = s.clan_match_detection := by
  unfold use_weapon_breakdown_updates
  split <;> rfl

theorem teamscore_clan (s : AnalyzerState) (e : AnalyzerEvent) :
    (use_team_score_updates s e).clan_match_detection = s.clan_match_detection := by
  unfold use_team_score_updates
  split <;> rfl

theorem player_time (s : AnalyzerState) (e : AnalyzerEvent) :
    (use_player_updates s e).current_time = s.current_time := by
  unfold use_player_updates
  split
  · dsimp only
    split
    · rfl
    · split <;> rfl
  · rfl

theorem scoreboard_time (s : AnalyzerState) (e : AnalyzerEvent) :
    (use_scoreboard_updates s e).current_time = s.current_time := by
  unfold use_scoreboard_updates
  split <;> rfl

theorem killstreak_time (s : AnalyzerState) (e : AnalyzerEvent) :
    (use_kill_streak_updates s e).current_time = s.current_time := by
  unfold use_kill_streak_updates
  split
  · dsimp only
    split <;> rfl
  · rfl
  · rfl

theorem weapon_time (s : AnalyzerState) (e : AnalyzerEvent) :
    (use_weapon_breakdown_updates s e).current_time = s.current_time := by
  unfold use_weapon_breakdown_updates
  split <;> rfl

theorem teamscore_time (s : AnalyzerState) (e : AnalyzerEvent) :
    (use_team_score_updates s e).current_time = s.current_time := by
  unfold use_team_score_updates
  split <;> rfl

theorem rounds_ok_fields (s s' : AnalyzerState) (e : AnalyzerEvent)
    (h : use_rounds_updates s e = .ok s') :
    s'.players = s.players ∧ s'.current_time = s.current_time ∧
      s'.clan_match_detection = s.clan_match_detection ∧ s'.team_scores = s.team_scores := by
  unfold use_rounds_updates at h
  dsimp only at h
  repeat' split at h
  all_goals
    first
      | exact Except.noConfusion h
      | (injection h with h; subst h; exact ⟨rfl, rfl, rfl, rfl⟩)

theorem rounds_error_kind (s : AnalyzerState) (e : AnalyzerEvent) (p : Panic)
    (h : use_rounds_updates s e = .error p) : p = .roundsNoActive := by
  unfold use_rounds_updates at h
  dsimp only at h
  repeat' split at h
  all_goals
    first
      | exact Except.noConfusion h
      | (injection h with h; exact h.symm)

theorem clan_c10 (maxd : Duration) (s : AnalyzerState) (e : AnalyzerEvent)
    (hinv : resetTimeBounded s) :
    use_clan_match_detection_updates maxd s e ≠ .error .durationUnderflow ∧
      ∀ s', use_clan_match_detection_updates maxd s e = .ok s' →
        resetTimeBounded s' ∧ s'.current_time = s.current_time := by
  unfold use_clan_match_detection_updates
  split
  · -- clanTimer
    split
    · refine ⟨by simp, ?_⟩
      intro s' h
      injection h with h; subst h
      exact ⟨fun rt hrt => by simp at hrt, rfl⟩
    · refine ⟨by simp, ?_⟩
      intro s' h
      injection h with h; subst h
      exact ⟨hinv, rfl⟩
  · -- roundState
    split
    · refine ⟨by simp, ?_⟩
      intro s' h
      injection h with h; subst h
      refine ⟨?_, rfl⟩
      intro rt hrt
      injection hrt with hrt
      subst hrt
      exact Nat.le_refl _
    · split
      · refine ⟨by simp, ?_⟩
        intro s' h
        injection h with h; subst h
        exact ⟨fun rt hrt => by simp at hrt, rfl⟩
      · refine ⟨by simp, ?_⟩
        intro s' h
        injection h with h; subst h
        exact ⟨hinv, rfl⟩
    · refine ⟨by simp, ?_⟩
      intro s' h
      injection h with h; subst h
      exact ⟨hinv, rfl⟩
  · -- other events: the timeout check
    split
    next rt hcl =>
      have hle := hinv rt hcl
      have hlt : ¬ s.current_time.offset < rt.offset := Nat.not_lt.mpr hle
      rw [if_neg hlt]
      split
      · refine ⟨by simp, ?_⟩
        intro s' h
        injection h with h; subst h
        exact ⟨fun rt' hrt' => by simp at hrt', rfl⟩
      · refine ⟨by simp, ?_⟩
        intro s' h
        injection h with h; subst h
        exact ⟨hinv, rfl⟩
    next hcl =>
      refine ⟨by simp, ?_⟩
      intro s' h
      injection h with h; subst h
      exact ⟨hinv, rfl⟩

theorem step_c10 (s : AnalyzerState) (e : AnalyzerEvent)
    (hinv : resetTimeBounded s)
    (hle : ∀ t, e = .engineMessage (.svcTime t) → s.current_time.offset ≤ t) :
    stepEvent s e ≠ .error .durationUnderflow ∧
      ∀ s', stepEvent s e = .ok s' → resetTimeBounded s' ∧
        s'.current_time.offset = timeTarget s e := by
  have h6clan : (use_team_score_updates (use_weapon_breakdown_updates (use_kill_streak_updates
      (use_scoreboard_updates (use_player_updates (use_timing_updates s e) e) e) e) e)
        e).clan_match_detection = s.clan_match_detection := by
    rw [teamscore_clan, weapon_clan, killstreak_clan, scoreboard_clan, player_clan, timing_clan]
  have h6time : (use_team_score_updates (use_weapon_breakdown_updates (use_kill_streak_updates
      (use_scoreboard_updates (use_player_updates (use_timing_updates s e) e) e) e) e)
        e).current_time = (use_timing_updates s e).current_time := by
    rw [teamscore_time, weapon_time, killstreak_time, scoreboard_time, player_time]
  have htOffset : (use_timing_updates s e).current_time.offset = timeTarget s e := by
    cases e with
    | engineMessage em =>
      cases em with
      | svcTime t =>
        have hst := hle t rfl
        simp only [use_timing_updates, timeTarget]
        by_cases h0 : 0 < t
        · simp [h0]
        · have ht0 : t = 0 := Nat.eq_zero_of_not_pos h0
          subst ht0
          have hs0 : s.current_time.offset = 0 := Nat.le_zero.mp hst
          simp [hs0]
      | svcUpdateUserInfo i id u => rfl
      | otherEngineMessage => rfl
    | initialization => rfl
    | userMessage um => rfl
    | finalization => rfl
  have hmonoT : s.current_time.offset ≤ timeTarget s e := by
    unfold timeTarget
    split
    · exact hle _ rfl
    · exact Nat.le_refl _
  rcases hr : use_rounds_updates (use_team_score_updates (use_weapon_breakdown_updates
      (use_kill_streak_updates (use_scoreboard_updates (use_player_updates
      (use_timing_updates s e) e) e) e) e) e) e with p | s7
  · have hp : p = .roundsNoActive := rounds_error_kind _ _ _ hr
    subst hp
    have hbind : stepEvent s e = .error .roundsNoActive := by
      show (use_rounds_updates (use_team_score_updates (use_weapon_breakdown_updates
        (use_kill_streak_updates (use_scoreboard_updates (use_player_updates
        (use_timing_updates s e) e) e) e) e) e) e >>= fun s7 =>
        use_clan_match_detection_updates (Dod.durationFromSecs 10) s7 e) = _
      rw [hr]
      rfl
    constructor
    · intro hc
      rw [hbind] at hc
      injection hc with hc
      exact Panic.noConfusion hc
    · intro s' hok
      rw [hbind] at hok
      exact Except.noConfusion hok
  · have hbind : stepEvent s e
        = use_clan_match_detection_updates (Dod.durationFromSecs 10) s7 e := by
      show (use_rounds_updates (use_team_score_updates (use_weapon_breakdown_updates
        (use_kill_streak_updates (use_scoreboard_updates (use_player_updates
        (use_timing_updates s e) e) e) e) e) e) e >>= fun s7 =>
        use_clan_match_detection_updates (Dod.durationFromSecs 10) s7 e) = _
      rw [hr]
      rfl
    obtain ⟨hp7, ht7, hc7, hts7⟩ := rounds_ok_fields _ s7 e hr
    have ht7o : s7.current_time.offset = timeTarget s e := by
      rw [ht7, h6time, htOffset]
    have hinv7 : resetTimeBounded s7 := by
      intro rt hrt
      rw [hc7, h6clan] at hrt
      rw [ht7o]
      exact Nat.le_trans (hinv rt hrt) hmonoT
    have hclan := clan_c10 (Dod.durationFromSecs 10) s7 e hinv7
    constructor
    · intro hc
      rw [hbind] at hc
      exact hclan.1 hc
    · intro s' hok
      rw [hbind] at hok
      obtain ⟨hinv', hteq⟩ := hclan.2 s' hok
      refine ⟨hinv', ?_⟩
      rw [hteq]
      exact ht7o

theorem c10_aux (evs : List AnalyzerEvent) : ∀ s0 : AnalyzerState, resetTimeBounded s0 →
    nonDecFrom s0.current_time.offset evs = true →
    runFrom s0 evs ≠ .error .durationUnderflow ∧
      ∀ s, runFrom s0 evs = .ok s → resetTimeBounded s := by
  induction evs with
  | nil =>
    intro s0 h0 _
    refine ⟨by simp [runFrom], ?_⟩
    intro s hs
    injection hs with hs
    subst hs
    exact h0
  | cons e es ih =>
    intro s0 h0 hmono
    have hle : ∀ t, e = .engineMessage (.svcTime t) → s0.current_time.offset ≤ t := by
      intro t het
      subst het
      unfold nonDecFrom at hmono
      exact of_decide_eq_true (Bool.and_eq_true_iff.mp hmono).1
    have hstep10 := step_c10 s0 e h0 hle
    unfold runFrom
    rcases hstep : stepEvent s0 e with p | s1
    · refine ⟨?_, ?_⟩
      · intro hc
        injection hc with hc
        subst hc
        exact hstep10.1 hstep
      · intro s hs
        exact Except.noConfusion hs
    · obtain ⟨hinv1, ht1⟩ := hstep10.2 s1 hstep
      have hmono1 : nonDecFrom s1.current_time.offset es = true := by
        cases e with
        | engineMessage em =>
          cases em with
          | svcTime t =>
            unfold nonDecFrom at hmono
            have h2 := (Bool.and_eq_true_iff.mp hmono).2
            have htt : s1.current_time.offset = t := ht1
            rw [htt]
            exact h2
          | svcUpdateUserInfo i id u =>
            have htt : s1.current_time.offset = s0.current_time.offset := ht1
            rw [htt]
            exact hmono
          | otherEngineMessage =>
            have htt : s1.current_time.offset = s0.current_time.offset := ht1
            rw [htt]
            exact hmono
        | initialization =>
          have htt : s1.current_time.offset = s0.current_time.offset := ht1
          rw [htt]
          exact hmono
        | userMessage um =>
          have htt : s1.current_time.offset = s0.current_time.offset := ht1
          rw [htt]
          exact hmono
        | finalization =>
          have htt : s1.current_time.offset = s0.current_time.offset := ht1
          rw [htt]
          exact hmono
      exact ih s1 hinv1 hmono1

/-- C10 (amended): if the `SvcTime` values appearing in the event sequence are
non-decreasing, the analysis never aborts with the duration-underflow panic,
and in every reachable `WaitingForNormal { reset_time }` state the current
offset bounds the reset time from above, so the timeout subtraction cannot
underflow.  (Without the monotonicity assumption the panic is reachable — see
the counterexample.) -/
theorem c10_amended (evs : List AnalyzerEvent) (hmono : nonDecFrom 0 evs = true) :
    runEvents evs ≠ .error .durationUnderflow ∧
      ∀ s rt, runEvents evs = .ok s →
        s.clan_match_detection = .waitingForNormal rt → rt.offset ≤ s.current_time.offset := by
  have h0 : resetTimeBounded AnalyzerState.initial := by
    intro rt hrt
    exact ClanMatchDetection.noConfusion hrt
  have h := c10_aux evs AnalyzerState.initial h0 hmono
  exact ⟨h.1, fun s rt hok hw => h.2 s hok rt hw⟩

/-- C10 witness: the amended theorem applied to a concrete monotone trace
containing a Reset between two increasing `SvcTime` updates. -/
theorem c10_witness :
    nonDecFrom 0 [AnalyzerEvent.engineMessage (.svcTime 1000000000),
        .userMessage (.roundState .reset), .engineMessage (.svcTime 2000000000)] = true ∧
      runEvents [AnalyzerEvent.engineMessage (.svcTime 1000000000),
        .userMessage (.roundState .reset), .engineMessage (.svcTime 2000000000)]
          ≠ .error .durationUnderflow :=
  ⟨by decide,
    (c10_amended [AnalyzerEvent.engineMessage (.svcTime 1000000000),
      .userMessage (.roundState .reset), .engineMessage (.svcTime 2000000000)] (by decide)).1⟩
/-- `isConnectedTo` depends only on the connection status. -/
theorem isConnectedTo_status (cid : Nat) (p q : Player)
    (h : q.connection_status = p.connection_status) :
    isConnectedTo cid q = isConnectedTo cid p := by
  unfold isConnectedTo
  rw [h]

/-- `countConnected` on a cons cell. -/
theorem countConnected_cons (cid : Nat) (p : Player) (ps : List Player) :
    countConnected cid (p :: ps)
      = (if isConnectedTo cid p then 1 else 0) + countConnected cid ps := rfl

/-- `countConnected` distributes over list append. -/
theorem countConnected_append (cid : Nat) (l r : List Player) :
    countConnected cid (l ++ r) = countConnected cid l + countConnected cid r := by
  induction l with
  | nil => simp [countConnected]
  | cons p ps ih =>
    rw [List.cons_append, countConnected_cons, countConnected_cons, ih, Nat.add_assoc]

/-- A freshly constructed player (`Player::new`) occupies no slot. -/
theorem countConnected_new (cid : Nat) (pid : PlayerGlobalId) :
    countConnected cid [Player.new pid] = 0 := rfl

/-- Updating a player without touching its connection status preserves the
connected count of every slot. -/
theorem countConnected_updateFirst_pres (cid : Nat) (q : Player → Bool) (f : Player → Player)
    (hf : ∀ p, (f p).connection_status = p.connection_status) :
    ∀ ps, countConnected cid (updateFirst q f ps) = countConnected cid ps := by
  intro ps
  induction ps with
  | nil => rfl
  | cons p ps ih =>
    unfold updateFirst
    by_cases hq : q p = true
    · rw [if_pos hq, countConnected_cons, countConnected_cons,
        isConnectedTo_status cid p (f p) (hf p)]
    · rw [if_neg hq, countConnected_cons, countConnected_cons, ih]

/-- Mapping a status-preserving function over the players preserves the
connected count of every slot. -/
theorem countConnected_map_pres (cid : Nat) (f : Player → Player)
    (hf : ∀ p, (f p).connection_status = p.connection_status) :
    ∀ ps, countConnected cid (List.map f ps) = countConnected cid ps := by
  intro ps
  induction ps with
  | nil => rfl
  | cons p ps ih =>
    rw [List.map_cons, countConnected_cons, countConnected_cons, ih,
      isConnectedTo_status cid p (f p) (hf p)]

/-- An update whose result never occupies slot `cid` cannot increase the
connected count of `cid`. -/
theorem countConnected_updateFirst_off (cid : Nat) (q : Player → Bool) (f : Player → Player)
    (hf : ∀ p, isConnectedTo cid (f p) = false) :
    ∀ ps, countConnected cid (updateFirst q f ps) ≤ countConnected cid ps := by
  intro ps
  induction ps with
  | nil => exact Nat.le_refl 0
  | cons p ps ih =>
    unfold updateFirst
    by_cases hq : q p = true
    · rw [if_pos hq, countConnected_cons, countConnected_cons]
      have h1 : (if isConnectedTo cid (f p) = true then 1 else 0) = 0 := by simp [hf p]
      rw [h1, Nat.zero_add]
      exact Nat.le_add_left _ _
    · rw [if_neg hq, countConnected_cons, countConnected_cons]
      exact Nat.add_le_add_left ih _

/-- Disconnecting the first occupant of slot `cid` empties the slot, provided
the slot held at most one connected player to begin with. -/
theorem countConnected_updateFirst_flush (cid : Nat) (f : Player → Player)
    (hf : ∀ p, isConnectedTo cid (f p) = false) :
    ∀ ps, countConnected cid ps ≤ 1 →
      countConnected cid (updateFirst (isConnectedTo cid) f ps) = 0 := by
  intro ps
  induction ps with
  | nil => intro _; rfl
  | cons p ps ih =>
    intro hle
    unfold updateFirst
    by_cases hq : isConnectedTo cid p = true
    · rw [if_pos hq, countConnected_cons]
      have h1 : (if isConnectedTo cid (f p) = true then 1 else 0) = 0 := by simp [hf p]
      rw [h1]
      rw [countConnected_cons, if_pos hq] at hle
      have h2 : countConnected cid ps = 0 := by omega
      rw [h2]
    · rw [if_neg hq, countConnected_cons, if_neg hq]
      rw [countConnected_cons, if_neg hq, Nat.zero_add] at hle
      rw [ih hle]

/-- Updating a single player increases a slot's connected count by at most
one. -/
theorem countConnected_updateFirst_le_succ (cid : Nat) (q : Player → Bool)
    (f : Player → Player) :
    ∀ ps, countConnected cid (updateFirst q f ps) ≤ countConnected cid ps + 1 := by
  intro ps
  induction ps with
  | nil => exact Nat.zero_le 1
  | cons p ps ih =>
    unfold updateFirst
    by_cases hq : q p = true
    · rw [if_pos hq, countConnected_cons, countConnected_cons]
      have h1 : (if isConnectedTo cid (f p) = true then 1 else 0) ≤ 1 := by
        split
        · exact Nat.le_refl 1
        · exact Nat.zero_le 1
      exact Nat.le_trans (Nat.add_le_add_right h1 _)
        (Nat.le_trans (Nat.le_of_eq (Nat.add_comm 1 _))
          (Nat.add_le_add_right (Nat.le_add_left _ _) 1))
    · rw [if_neg hq, countConnected_cons, countConnected_cons]
      exact Nat.le_trans (Nat.add_le_add_left ih _) (Nat.le_of_eq (Nat.add_assoc _ _ 1).symm)

/-- The disconnect-then-connect sequence of the identity-derivation path keeps
every slot's connected count at most one: the target slot is flushed before the
single incoming player connects to it, and any other slot only loses
occupants. -/
theorem slot_update_le (cid index : Nat) (f g : Player → Player)
    (hf : ∀ p, isConnectedTo cid (f p) = false)
    (hg : ∀ p, (g p).connection_status = .connected index)
    (L : List Player) (q : Player → Bool) (hL : countConnected cid L ≤ 1) :
    countConnected cid (updateFirst q g (updateFirst (isConnectedTo index) f L)) ≤ 1 := by
  by_cases hci : cid = index
  · subst hci
    have h2 : countConnected cid (updateFirst (isConnectedTo cid) f L) = 0 :=
      countConnected_updateFirst_flush cid f hf L hL
    calc countConnected cid (updateFirst q g (updateFirst (isConnectedTo cid) f L))
        ≤ countConnected cid (updateFirst (isConnectedTo cid) f L) + 1 :=
          countConnected_updateFirst_le_succ cid q g _
      _ = 1 := by rw [h2]
  · have hg' : ∀ p, isConnectedTo cid (g p) = false := by
      intro p
      unfold isConnectedTo
      rw [hg p]
      show (index == cid) = false
      cases hbe : index == cid
      · rfl
      · exact absurd (eq_of_beq hbe).symm hci
    exact Nat.le_trans (countConnected_updateFirst_off cid q g hg' _)
      (Nat.le_trans (countConnected_updateFirst_off cid (isConnectedTo index) f hf L) hL)

/-- The player update preserves slot uniqueness: if before the event every slot
has at most one connected player, the same holds afterwards. -/
theorem player_count (s : AnalyzerState) (e : AnalyzerEvent)
    (hle : ∀ c, countConnected c s.players ≤ 1) (cid : Nat) :
    countConnected cid (use_player_updates s e).players ≤ 1 := by
  cases e with
  | initialization => exact hle cid
  | finalization => exact hle cid
  | userMessage um => exact hle cid
  | engineMessage em =>
    cases em with
    | svcTime t => exact hle cid
    | otherEngineMessage => exact hle cid
    | svcUpdateUserInfo index id user_info =>
      unfold use_player_updates
      dsimp only
      split
      · refine Nat.le_trans (countConnected_updateFirst_off cid _ _ ?_ s.players) (hle cid)
        exact fun p => rfl
      · split
        · exact hle cid
        · refine slot_update_le cid index _ _ ?_ ?_ _ _ ?_
          · exact fun p => rfl
          · exact fun p => rfl
          · split
            · rw [countConnected_append, countConnected_new, Nat.add_zero]
              exact hle cid
            · exact hle cid

/-- The timing update never touches the players list. -/
theorem timing_players (s : AnalyzerState) (e : AnalyzerEvent) :
    (use_timing_updates s e).players = s.players := by
  unfold use_timing_updates
  split
  · split <;> rfl
  · rfl

/-- The team-score update never touches the players list. -/
theorem teamscore_players (s : AnalyzerState) (e : AnalyzerEvent) :
    (use_team_score_updates s e).players = s.players := by
  unfold use_team_score_updates
  repeat' split
  all_goals rfl

/-- The scoreboard update only rewrites score/class/team fields, so every
slot's connected count is unchanged. -/
theorem scoreboard_count (s : AnalyzerState) (e : AnalyzerEvent) (cid : Nat) :
    countConnected cid (use_scoreboard_updates s e).players
      = countConnected cid s.players := by
  unfold use_scoreboard_updates
  repeat' split
  all_goals dsimp only
  all_goals
    first
      | rfl
      | (refine countConnected_updateFirst_pres cid _ _ ?_ s.players; exact fun p => rfl)

/-- The kill-streak update only rewrites `kill_streaks` fields, so every slot's
connected count is unchanged. -/
theorem killstreak_count (s : AnalyzerState) (e : AnalyzerEvent) (cid : Nat) :
    countConnected cid (use_kill_streak_updates s e).players
      = countConnected cid s.players := by
  unfold use_kill_streak_updates
  split
  · dsimp only
    split
    · refine countConnected_updateFirst_pres cid _ _ ?_ s.players
      exact fun p => rfl
    · refine (countConnected_updateFirst_pres cid _ _ ?_ _).trans
        (countConnected_updateFirst_pres cid _ _ ?_ s.players) <;> exact fun p => rfl
  · dsimp only
    refine countConnected_map_pres cid _ ?_ s.players
    exact fun p => rfl
  · rfl

/-- The weapon-breakdown update only rewrites `weapon_breakdown` fields, so
every slot's connected count is unchanged. -/
theorem weapon_count (s : AnalyzerState) (e : AnalyzerEvent) (cid : Nat) :
    countConnected cid (use_weapon_breakdown_updates s e).players
      = countConnected cid s.players := by
  unfold use_weapon_breakdown_updates
  repeat' split
  all_goals dsimp only
  all_goals
    first
      | rfl
      | (refine countConnected_updateFirst_pres cid _ _ ?_ s.players; exact fun p => rfl)

/-- A successful clan-match detection step only clears `kill_streaks` and
`weapon_breakdown`, so every slot's connected count is unchanged. -/
theorem clan_ok_count (maxd : Duration) (s s' : AnalyzerState) (e : AnalyzerEvent)
    (h : use_clan_match_detection_updates maxd s e = .ok s') (cid : Nat) :
    countConnected cid s'.players = countConnected cid s.players := by
  unfold use_clan_match_detection_updates at h
  dsimp only at h
  repeat' split at h
  all_goals
    first
      | exact Except.noConfusion h
      | (injection h with h; subst h;
         first
           | rfl
           | (refine countConnected_map_pres cid _ ?_ s.players; exact fun p => rfl))

/-- One analyzer step preserves slot uniqueness. -/
theorem step_count (s s' : AnalyzerState) (e : AnalyzerEvent)
    (h : stepEvent s e = .ok s') (hle : ∀ c, countConnected c s.players ≤ 1) :
    ∀ c, countConnected c s'.players ≤ 1 := by
  have h2 : ∀ c, countConnected c (use_player_updates (use_timing_updates s e) e).players ≤ 1 := by
    intro c
    refine player_count (use_timing_updates s e) e ?_ c
    intro c2
    rw [timing_players]
    exact hle c2
  have h6 : ∀ c, countConnected c (use_team_score_updates (use_weapon_breakdown_updates
      (use_kill_streak_updates (use_scoreboard_updates (use_player_updates
      (use_timing_updates s e) e) e) e) e) e).players ≤ 1 := by
    intro c
    rw [teamscore_players, weapon_count, killstreak_count, scoreboard_count]
    exact h2 c
  rcases hr : use_rounds_updates (use_team_score_updates (use_weapon_breakdown_updates
      (use_kill_streak_updates (use_scoreboard_updates (use_player_updates
      (use_timing_updates s e) e) e) e) e) e) e with p | s7
  · have hbind : stepEvent s e = .error p := by
      show (use_rounds_updates (use_team_score_updates (use_weapon_breakdown_updates
        (use_kill_streak_updates (use_scoreboard_updates (use_player_updates
        (use_timing_updates s e) e) e) e) e) e) e >>= fun s7 =>
        use_clan_match_detection_updates (Dod.durationFromSecs 10) s7 e) = _
      rw [hr]
      rfl
    rw [hbind] at h
    exact Except.noConfusion h
  · have hbind : stepEvent s e
        = use_clan_match_detection_updates (Dod.durationFromSecs 10) s7 e := by
      show (use_rounds_updates (use_team_score_updates (use_weapon_breakdown_updates
        (use_kill_streak_updates (use_scoreboard_updates (use_player_updates
        (use_timing_updates s e) e) e) e) e) e) e >>= fun s7 =>
        use_clan_match_detection_updates (Dod.durationFromSecs 10) s7 e) = _
      rw [hr]
      rfl
    rw [hbind] at h
    have hps7 := (rounds_ok_fields _ s7 e hr).1
    intro c
    rw [clan_ok_count (Dod.durationFromSecs 10) s7 s' e h c, hps7]
    exact h6 c

/-- Slot uniqueness propagates along the event fold from any state enjoying
it. -/
theorem c6_aux (evs : List AnalyzerEvent) : ∀ s0 s : AnalyzerState,
    (∀ c, countConnected c s0.players ≤ 1) → runFrom s0 evs = .ok s →
    ∀ c, countConnected c s.players ≤ 1 := by
  induction evs with
  | nil =>
    intro s0 s h0 hr
    injection hr with hr
    subst hr
    exact h0
  | cons e es ih =>
    intro s0 s h0 hr
    unfold runFrom at hr
    rcases hstep : stepEvent s0 e with p | s1 <;> rw [hstep] at hr
    · exact Except.noConfusion hr
    · exact ih s1 s (step_count s0 s1 e hstep h0) hr

/-- C6: slot uniqueness. After processing any sequence of events from the
initial state, for every `client_id` at most one player in the players list
reports `Connected` with that id: the empty-userinfo path only disconnects,
and the identity-derivation path disconnects the slot's occupant before
connecting exactly one player to it, while every other update preserves
connection statuses. -/
theorem c6_slot_uniqueness (evs : List AnalyzerEvent) (s : AnalyzerState)
    (h : runEvents evs = .ok s) (cid : Nat) :
    countConnected cid s.players ≤ 1 :=
  c6_aux evs AnalyzerState.initial s (fun _ => Nat.zero_le 1) h cid

/-- C6 witness: the theorem applied to a concrete trace in which two different
identities successively claim client slot 0. -/
theorem c6_witness :
    runEvents c6Events = .ok c6State ∧ countConnected 0 c6State.players ≤ 1 :=
  ⟨rfl, c6_slot_uniqueness c6Events c6State rfl 0⟩
